import Mathlib

/-!
# tinyusb vendor example: protocol engine

A shallow embedding of `src/main.c` (with the constants of `src/include.h`
and `src/tusb_config.h`): the bulk command engine (`tud_vendor_rx_cb`,
`maybe_send_data`, `send_status_response`), the lifecycle callbacks and the
control dispatcher (`tud_vendor_control_xfer_cb`).

* The C statics become the fields of `Statics`; every function takes the
  statics and returns the new statics together with the list of transport
  calls it made, in order (`Effect`).
* `uint8_t`, `uint16_t` and `uint32_t` values are `Nat`; every assignment that
  can truncate carries an explicit `% 2 ^ w`.
* What the transport answers (`tud_vendor_write_available`, the return value
  of `tud_vendor_write` and of `tud_control_xfer`) is a parameter, `Transport`.
* Logging (`INFO`) is not modelled.
-/

namespace TinyusbVendor

/-! ## Constants (include.h, tusb_config.h) -/

def ITF_NUM_VENDOR : Nat := 0

def CTRL_ECHO : Nat := 0x00
def CTRL_INIT : Nat := 0x01
def CTRL_RESET : Nat := 0x02
def CTRL_SHUTDOWN : Nat := 0x03
def CTRL_ENTER_BOOTLOADER : Nat := 0x04
def CTRL_GITREV : Nat := 0x06
def CTRL_GCCVER : Nat := 0x07
def CTRL_SDKVER : Nat := 0x08

def CMD_NONE : Nat := 0
def CMD_READ : Nat := 8
def CMD_WRITE : Nat := 9

def COMMAND_LEN : Nat := 4
def STATUS_LEN : Nat := 3

def STATUS_BUSY : Nat := 1
def STATUS_READY : Nat := 2
def STATUS_ERROR : Nat := 3

def CFG_TUD_VENDOR_RX_BUFSIZE : Nat := 64

/-- Modelled from the spec: the direction value of a control request that asks
the device for data (`TUSB_DIR_IN` of the tinyusb headers, which are not part
of the repository). -/
def TUSB_DIR_IN : Nat := 1

/-- Modelled from the spec: the request type "class" (`TUSB_REQ_TYPE_CLASS` of
the tinyusb headers, which are not part of the repository). -/
def TUSB_REQ_TYPE_CLASS : Nat := 1

/-- Modelled from the spec: the "setup" stage of a control transfer
(`CONTROL_STAGE_SETUP` of the tinyusb headers, which are not part of the
repository). -/
def CONTROL_STAGE_SETUP : Nat := 1

/-! ## Data model -/

/-- One call into the transport, as made by the program. `vendor_write`
carries the bytes offered (`tud_vendor_write (buf, n)` offers the first `n`
bytes of `buf`); `control_xfer` carries the bytes handed to
`tud_control_xfer`. -/
inductive Effect where
  | vendor_write (bytes : List Nat)
  | vendor_write_flush
  | vendor_write_available
  | vendor_read_flush
  | control_xfer (bytes : List Nat)
  | multicore_reset_core1
  | reset_usb_boot
  deriving DecidableEq, Repr

/-- The statics of `main.c`: the three protocol variables, the `status`
buffer, and the function statics `send_buffer` (of `maybe_send_data`),
`ctrl_rsp` and `rsp_len` (of `tud_vendor_control_xfer_cb`). -/
structure Statics where
  expected_data_len : Nat
  handled_data_len : Nat
  current_command : Nat
  status : List Nat
  send_buffer : List Nat
  ctrl_rsp : List Nat
  rsp_len : Nat
  deriving DecidableEq, Repr

/-- The statics as the C runtime sets them up: everything zero. -/
def Statics.init : Statics :=
  { expected_data_len := 0
    handled_data_len := 0
    current_command := CMD_NONE
    status := List.replicate STATUS_LEN 0
    send_buffer := List.replicate 64 0
    ctrl_rsp := List.replicate 8 0
    rsp_len := 0 }

/-- The answers of the transport during one callback or one poll:
what `tud_vendor_write_available ()` reports, how many of the offered bytes
`tud_vendor_write` accepts, and what `tud_control_xfer` returns. -/
structure Transport where
  write_available : Nat
  write : List Nat → Nat
  control_xfer : List Nat → Bool

/-- Build-time inputs: the three version strings (their characters, as byte
values) and whether `PICO_ENTER_USB_BOOT_ON_EXIT` is defined. -/
structure Build where
  git_revision : List Nat
  gcc_version : List Nat
  sdk_version : List Nat
  enter_usb_boot_on_exit : Bool

/-- The fields of `tusb_control_request_t` the dispatcher looks at. -/
structure ControlRequest where
  bmRequestType_direction : Nat
  bmRequestType_type : Nat
  bRequest : Nat
  wValue : Nat
  wIndex : Nat
  wLength : Nat
  deriving DecidableEq, Repr

/-- The outcome of a control callback: the statics, the transport calls, and
the value returned (`none` when the callback does not return because the
device reboots). -/
structure CtrlResult where
  st : Statics
  effects : List Effect
  ret : Option Bool

/-! ## C library helpers -/

/-- The C call `memset (buf, c, n)`: the first `n` bytes become `c`. -/
def memset (buf : List Nat) (c n : Nat) : List Nat :=
  List.replicate n c ++ buf.drop n

/-- The C call `strncpy (dest, src, n)`: the characters of `src` up to its
terminator, at most `n` of them, then zero bytes up to `n`. -/
def strncpy (dest src : List Nat) (n : Nat) : List Nat :=
  let chars := src.takeWhile (fun c => c ≠ 0)
  chars.take n ++ List.replicate (n - chars.length) 0 ++ dest.drop n

/-! ## Protocol handling -/

/-- The function `reset_data`. -/
def reset_data (s : Statics) : Statics :=
  { s with expected_data_len := 0, handled_data_len := 0 }

/-- The function `send_status_response`: the three cells of `status` are
assigned, then the buffer is written and flushed. -/
def send_status_response (s : Statics) (status_val data_len : Nat) :
    Statics × List Effect :=
  let status := [status_val, (data_len &&& 0xff) % 256, (data_len >>> 8) % 256]
  ({ s with status := status },
   [Effect.vendor_write (status.take STATUS_LEN), Effect.vendor_write_flush])

/-- The function `maybe_send_data`, one poll of the main loop. -/
def maybe_send_data (t : Transport) (s : Statics) : Statics × List Effect :=
  if s.current_command = CMD_READ then
    let max_bytes_to_send := t.write_available % 2 ^ 32
    let want_to_send := (s.expected_data_len + 65536 - s.handled_data_len) % 65536
    let try_to_send :=
      if want_to_send > max_bytes_to_send then max_bytes_to_send % 65536 else want_to_send
    let try_to_send := if try_to_send > 64 then 64 else try_to_send
    let send_buffer := memset s.send_buffer 0x78 try_to_send
    let offered := send_buffer.take try_to_send
    let sent := t.write offered % 2 ^ 32
    let s1 := { s with send_buffer := send_buffer,
                       handled_data_len := (s.handled_data_len + sent) % 65536 }
    let effects := [Effect.vendor_write_available, Effect.vendor_write offered,
                    Effect.vendor_write_flush]
    if s1.handled_data_len ≥ s1.expected_data_len then
      ({ reset_data s1 with current_command := CMD_NONE }, effects)
    else
      (s1, effects)
  else
    (s, [])

/-- The function `init_protocol_handling`. -/
def init_protocol_handling (s : Statics) : Statics :=
  reset_data { s with current_command := CMD_NONE }

/-! ## tinyusb callbacks -/

def tud_mount_cb (s : Statics) : Statics × List Effect :=
  (init_protocol_handling s, [])

def tud_umount_cb (s : Statics) : Statics × List Effect :=
  (init_protocol_handling s, [])

def tud_suspend_cb (s : Statics) (_remote_wakeup_en : Bool) : Statics × List Effect :=
  (init_protocol_handling s, [])

def tud_resume_cb (s : Statics) : Statics × List Effect :=
  (init_protocol_handling s, [])

/-- The tail of `tud_vendor_rx_cb`: the receive buffer is flushed when
`CFG_TUD_VENDOR_RX_BUFSIZE > 0`. -/
def rx_tail (r : Statics × List Effect) : Statics × List Effect :=
  if CFG_TUD_VENDOR_RX_BUFSIZE > 0 then (r.1, r.2 ++ [Effect.vendor_read_flush]) else r

/-- The callback `tud_vendor_rx_cb (itf, buffer, bufsize)`. The branch for a
wrong command length returns at once, before the tail of the function. -/
def tud_vendor_rx_cb (s : Statics) (itf : Nat) (buffer : List Nat) (bufsize : Nat) :
    Statics × List Effect :=
  if itf = ITF_NUM_VENDOR then
    if s.current_command = CMD_NONE then
      if bufsize = COMMAND_LEN then
        if buffer.getD 0 0 = CMD_WRITE then
          let s1 := { s with
            expected_data_len := (buffer.getD 2 0 ||| (buffer.getD 3 0 <<< 8)) % 65536,
            handled_data_len := 0 }
          if s1.expected_data_len = 0 then
            let status := (memset s1.status 0 STATUS_LEN).set 0 STATUS_READY
            rx_tail ({ s1 with status := status },
              [Effect.vendor_write (status.take STATUS_LEN), Effect.vendor_write_flush])
          else
            rx_tail ({ s1 with current_command := buffer.getD 0 0 }, [])
        else if buffer.getD 0 0 = CMD_READ then
          let s1 := { s with
            expected_data_len := (buffer.getD 2 0 ||| (buffer.getD 3 0 <<< 8)) % 65536,
            handled_data_len := 0 }
          if s1.expected_data_len > 0 then
            rx_tail ({ s1 with current_command := buffer.getD 0 0 }, [])
          else
            rx_tail ({ reset_data s1 with current_command := CMD_NONE }, [])
        else
          rx_tail (send_status_response s STATUS_ERROR 0)
      else
        send_status_response s STATUS_ERROR 0
    else if s.current_command = CMD_WRITE then
      let s1 := { s with handled_data_len := (s.handled_data_len + bufsize) % 65536 }
      if s1.expected_data_len = s1.handled_data_len then
        let r := send_status_response s1 STATUS_READY s1.handled_data_len
        rx_tail ({ reset_data r.1 with current_command := CMD_NONE }, r.2)
      else
        rx_tail (s1, [])
    else if s.current_command = CMD_READ then
      rx_tail (send_status_response s STATUS_BUSY 0)
    else
      rx_tail (send_status_response s STATUS_ERROR 0)
  else
    rx_tail (s, [])

/-- The callback `tud_vendor_tx_cb`: it only logs. -/
def tud_vendor_tx_cb (s : Statics) (_itf _sent_bytes : Nat) : Statics × List Effect :=
  (s, [])

/-- The function `enter_bootloader`: with `PICO_ENTER_USB_BOOT_ON_EXIT` it
stops core 1 and reboots, and does not return (`false`); without, it only
logs and returns (`true`). -/
def enter_bootloader (b : Build) : List Effect × Bool :=
  if b.enter_usb_boot_on_exit then
    ([Effect.multicore_reset_core1, Effect.reset_usb_boot], false)
  else
    ([], true)

/-- The end of the setup stage of `tud_vendor_control_xfer_cb`:
`return tud_control_xfer (rhport, request, ctrl_rsp, rsp_len)`. -/
def ctrl_send (t : Transport) (s : Statics) (pre : List Effect) : CtrlResult :=
  let bytes := s.ctrl_rsp.take s.rsp_len
  ⟨s, pre ++ [Effect.control_xfer bytes], some (t.control_xfer bytes)⟩

/-- The callback `tud_vendor_control_xfer_cb (rhport, stage, request)`. -/
def tud_vendor_control_xfer_cb (b : Build) (t : Transport) (s : Statics)
    (_rhport stage : Nat) (request : ControlRequest) : CtrlResult :=
  let dir_in : Bool := decide (request.bmRequestType_direction = TUSB_DIR_IN)
  if request.bmRequestType_type ≠ TUSB_REQ_TYPE_CLASS then
    ⟨s, [], some false⟩
  else if request.wIndex ≠ ITF_NUM_VENDOR then
    ⟨s, [], some false⟩
  else if stage = CONTROL_STAGE_SETUP then
    let s0 := { s with ctrl_rsp := memset s.ctrl_rsp 0 8 }
    if request.bRequest = CTRL_ECHO then
      if !dir_in then ⟨s0, [], some false⟩
      else ctrl_send t { s0 with ctrl_rsp := s0.ctrl_rsp.set 0 CTRL_ECHO, rsp_len := 1 } []
    else if request.bRequest = CTRL_INIT then
      if !dir_in then ⟨s0, [], some false⟩
      else
        let s1 := init_protocol_handling s0
        let rsp := (((memset s1.ctrl_rsp 0 8).set 0 0x08).set 1 0x03).set 2 0x0
        ctrl_send t { s1 with ctrl_rsp := rsp, rsp_len := 8 } []
    else if request.bRequest = CTRL_RESET then
      if dir_in then ⟨s0, [], some false⟩
      else ctrl_send t { s0 with rsp_len := 0 } []
    else if request.bRequest = CTRL_SHUTDOWN then
      if dir_in then ⟨s0, [], some false⟩
      else ctrl_send t { s0 with rsp_len := 0 } []
    else if request.bRequest = CTRL_ENTER_BOOTLOADER then
      if dir_in then ⟨s0, [], some false⟩
      else
        let r := enter_bootloader b
        if r.2 then ctrl_send t s0 r.1 else ⟨s0, r.1, none⟩
    else if request.bRequest = CTRL_GITREV then
      if !dir_in then ⟨s0, [], some false⟩
      else ctrl_send t { s0 with ctrl_rsp := strncpy s0.ctrl_rsp b.git_revision 8, rsp_len := 8 } []
    else if request.bRequest = CTRL_GCCVER then
      if !dir_in then ⟨s0, [], some false⟩
      else ctrl_send t { s0 with ctrl_rsp := strncpy s0.ctrl_rsp b.gcc_version 8, rsp_len := 8 } []
    else if request.bRequest = CTRL_SDKVER then
      if !dir_in then ⟨s0, [], some false⟩
      else ctrl_send t { s0 with ctrl_rsp := strncpy s0.ctrl_rsp b.sdk_version 8, rsp_len := 8 } []
    else
      ⟨s0, [], some false⟩
  else
    ⟨s, [], some true⟩

/-! ## Traces and runs -/

/-- The byte strings handed to `tud_vendor_write` in a trace, in order. -/
def vendor_writes : List Effect → List (List Nat)
  | [] => []
  | Effect.vendor_write bytes :: es => bytes :: vendor_writes es
  | _ :: es => vendor_writes es

/-- The chunks are delivered in order to the receive handler on the vendor
interface, each with `bufsize` its length; the traces are concatenated. -/
def rx_chunks (s : Statics) : List (List Nat) → Statics × List Effect
  | [] => (s, [])
  | c :: cs =>
    let r := tud_vendor_rx_cb s ITF_NUM_VENDOR c c.length
    let r2 := rx_chunks r.1 cs
    (r2.1, r.2 ++ r2.2)

/-- The poll step is called once per transport answer, in order; the log
keeps, for each poll, the transport it ran against and the trace of that
poll. -/
def poll_run (s : Statics) : List Transport → Statics × List (Transport × List Effect)
  | [] => (s, [])
  | t :: ts =>
    let r := maybe_send_data t s
    let r2 := poll_run r.1 ts
    (r2.1, (t, r.2) :: r2.2)

/-- The number of bytes the transport accepted over the writes of one
trace: the value `tud_vendor_write` returned for each of them. -/
def accepted (t : Transport) (es : List Effect) : Nat :=
  ((vendor_writes es).map (fun bytes => t.write bytes % 2 ^ 32)).sum

/-- The bytes accepted over a whole poll log. -/
def accepted_total (log : List (Transport × List Effect)) : Nat :=
  (log.map (fun p => accepted p.1 p.2)).sum

/-- The events that drive the program: a bulk receive, one poll of the main
loop, the four lifecycle callbacks, the transmit-complete callback and a
control request. -/
inductive Event where
  | rx (itf : Nat) (buffer : List Nat) (bufsize : Nat)
  | poll (t : Transport)
  | mount
  | umount
  | suspend (remote_wakeup_en : Bool)
  | resume
  | tx (itf sent_bytes : Nat)
  | control (t : Transport) (rhport stage : Nat) (request : ControlRequest)

/-- One event. When a control request reboots the device the program starts
again, with its statics as the C runtime sets them up. -/
def step (b : Build) (s : Statics) : Event → Statics × List Effect
  | Event.rx itf buffer bufsize => tud_vendor_rx_cb s itf buffer bufsize
  | Event.poll t => maybe_send_data t s
  | Event.mount => tud_mount_cb s
  | Event.umount => tud_umount_cb s
  | Event.suspend en => tud_suspend_cb s en
  | Event.resume => tud_resume_cb s
  | Event.tx itf sent_bytes => tud_vendor_tx_cb s itf sent_bytes
  | Event.control t rhport stage request =>
    let r := tud_vendor_control_xfer_cb b t s rhport stage request
    match r.ret with
    | some _ => (r.st, r.effects)
    | none => (Statics.init, r.effects)

/-- A sequence of events, from the left. -/
def run (b : Build) (s : Statics) : List Event → Statics × List Effect
  | [] => (s, [])
  | e :: es =>
    let r := step b s e
    let r2 := run b r.1 es
    (r2.1, r.2 ++ r2.2)

/-- The byte strings handed to `tud_vendor_write` over a whole poll log, in
order. -/
def log_writes : List (Transport × List Effect) → List (List Nat)
  | [] => []
  | q :: qs => vendor_writes q.2 ++ log_writes qs

/-- The shape of the three protocol variables between events: no command in
flight and both counters zero, or a Read in flight with
`handled_data_len < expected_data_len < 65536`, or a Write in flight with a
non-zero declared length. -/
def engine_inv (s : Statics) : Prop :=
  (s.current_command = CMD_NONE ∧ s.expected_data_len = 0 ∧ s.handled_data_len = 0)
  ∨ (s.current_command = CMD_READ ∧ 0 < s.expected_data_len ∧ s.expected_data_len < 65536
      ∧ s.handled_data_len < s.expected_data_len)
  ∨ (s.current_command = CMD_WRITE ∧ 0 < s.expected_data_len)

instance (s : Statics) : Decidable (engine_inv s) := by
  unfold engine_inv
  infer_instance

/-! ## Arithmetic of the 16-bit length field -/

theorem le16_decode (lo hi : Nat) (hlo : lo < 256) (hhi : hi < 256) :
    (lo ||| (hi <<< 8)) % 65536 = lo + 256 * hi := by
  have h1 : 2 ^ 8 * hi + lo = 2 ^ 8 * hi ||| lo :=
    Nat.mul_add_lt_is_or (by omega) hi
  have h2 : hi <<< 8 = 2 ^ 8 * hi := by rw [Nat.shiftLeft_eq]; ring
  rw [h2, Nat.lor_comm, ← h1]
  omega

theorem le16_roundtrip (n : Nat) (hn : n < 65536) :
    (n % 256 ||| ((n / 256) <<< 8)) % 65536 = n := by
  rw [le16_decode (n % 256) (n / 256) (Nat.mod_lt _ (by decide)) (by omega)]
  omega

theorem status_lo (n : Nat) : (n &&& 0xff) % 256 = n % 256 := by
  have h : n &&& 0xff = n % 2 ^ 8 := Nat.and_pow_two_sub_one_eq_mod n 8
  rw [h]
  omega

theorem status_hi (n : Nat) (hn : n < 65536) : (n >>> 8) % 256 = n / 256 := by
  rw [Nat.shiftRight_eq_div_pow]
  omega

/-! ## Traces -/

theorem vendor_writes_append (a b : List Effect) :
    vendor_writes (a ++ b) = vendor_writes a ++ vendor_writes b := by
  induction a with
  | nil => rfl
  | cons e es ih => cases e <;> simp [vendor_writes, ih]

theorem vendor_writes_read_flushes (k : Nat) :
    vendor_writes (List.replicate k Effect.vendor_read_flush) = [] := by
  induction k with
  | zero => rfl
  | succ k ih => simpa [List.replicate_succ, vendor_writes] using ih

/-! ## The receive handler, case by case -/

theorem rx_write_more (s : Statics) (buffer : List Nat) (bufsize : Nat)
    (hc : s.current_command = CMD_WRITE) (he : s.expected_data_len < 65536)
    (h : s.handled_data_len + bufsize < s.expected_data_len) :
    tud_vendor_rx_cb s ITF_NUM_VENDOR buffer bufsize =
      ({ s with handled_data_len := s.handled_data_len + bufsize },
       [Effect.vendor_read_flush]) := by
  have hm : (s.handled_data_len + bufsize) % 65536 = s.handled_data_len + bufsize :=
    Nat.mod_eq_of_lt (by omega)
  have hne : ¬ s.expected_data_len = s.handled_data_len + bufsize := by omega
  simp [tud_vendor_rx_cb, rx_tail, hc, CMD_WRITE, CMD_NONE, CFG_TUD_VENDOR_RX_BUFSIZE, hm, hne]

theorem rx_write_done (s : Statics) (buffer : List Nat) (bufsize : Nat)
    (hc : s.current_command = CMD_WRITE) (he : s.expected_data_len < 65536)
    (h : s.handled_data_len + bufsize = s.expected_data_len) :
    tud_vendor_rx_cb s ITF_NUM_VENDOR buffer bufsize =
      ({ s with handled_data_len := 0, expected_data_len := 0, current_command := CMD_NONE,
                status := [STATUS_READY, s.expected_data_len % 256, s.expected_data_len / 256] },
       [Effect.vendor_write [STATUS_READY, s.expected_data_len % 256, s.expected_data_len / 256],
        Effect.vendor_write_flush, Effect.vendor_read_flush]) := by
  have hm : (s.handled_data_len + bufsize) % 65536 = s.expected_data_len := by
    rw [h]; exact Nat.mod_eq_of_lt he
  simp [tud_vendor_rx_cb, rx_tail, send_status_response, reset_data, hc, CMD_WRITE, CMD_NONE,
    CFG_TUD_VENDOR_RX_BUFSIZE, STATUS_LEN, hm, status_lo, status_hi _ he]

theorem rx_cmd_write (s : Statics) (p lo hi : Nat) (hc : s.current_command = CMD_NONE)
    (hlo : lo < 256) (hhi : hi < 256) (hpos : 0 < lo + 256 * hi) :
    tud_vendor_rx_cb s ITF_NUM_VENDOR [CMD_WRITE, p, lo, hi] COMMAND_LEN =
      ({ s with expected_data_len := lo + 256 * hi, handled_data_len := 0,
                current_command := CMD_WRITE },
       [Effect.vendor_read_flush]) := by
  have hne : ¬ lo + 256 * hi = 0 := by omega
  simp [tud_vendor_rx_cb, rx_tail, hc, CFG_TUD_VENDOR_RX_BUFSIZE, le16_decode lo hi hlo hhi, hne]

theorem rx_cmd_read (s : Statics) (p lo hi : Nat) (hc : s.current_command = CMD_NONE)
    (hlo : lo < 256) (hhi : hi < 256) (hpos : 0 < lo + 256 * hi) :
    tud_vendor_rx_cb s ITF_NUM_VENDOR [CMD_READ, p, lo, hi] COMMAND_LEN =
      ({ s with expected_data_len := lo + 256 * hi, handled_data_len := 0,
                current_command := CMD_READ },
       [Effect.vendor_read_flush]) := by
  have hne : ¬ lo + 256 * hi = 0 := by omega
  simp [tud_vendor_rx_cb, rx_tail, hc, CFG_TUD_VENDOR_RX_BUFSIZE, le16_decode lo hi hlo hhi, hne,
    CMD_READ, CMD_WRITE]
  intro h0 h1
  omega

/-- While the chunks delivered so far stay short of the declared length, the
engine only counts them. -/
theorem rx_chunks_short (cs : List (List Nat)) :
    ∀ s : Statics, s.current_command = CMD_WRITE → s.expected_data_len < 65536 →
      s.handled_data_len + (cs.map List.length).sum < s.expected_data_len →
      rx_chunks s cs =
        ({ s with handled_data_len := s.handled_data_len + (cs.map List.length).sum },
         List.replicate cs.length Effect.vendor_read_flush) := by
  induction cs with
  | nil => intro s _ _ _; simp [rx_chunks]
  | cons c cs ih =>
    intro s hc he h
    simp only [List.map_cons, List.sum_cons] at h
    have h1 := rx_write_more s c c.length hc he (by omega)
    have h2 := ih { s with handled_data_len := s.handled_data_len + c.length } hc he
      (by simpa using (by omega : s.handled_data_len + c.length + (cs.map List.length).sum
            < s.expected_data_len))
    simp only [rx_chunks, h1, h2, List.map_cons, List.sum_cons, List.length_cons,
      List.replicate_succ]
    simp [Nat.add_assoc]

/-- The chunks that complete the declared length: one Ready frame, at the end. -/
theorem rx_chunks_exact (cs : List (List Nat)) :
    ∀ s : Statics, s.current_command = CMD_WRITE → s.expected_data_len < 65536 →
      cs ≠ [] → (∀ c ∈ cs, 1 ≤ c.length) →
      s.handled_data_len + (cs.map List.length).sum = s.expected_data_len →
      (rx_chunks s cs).1 =
        { s with handled_data_len := 0, expected_data_len := 0, current_command := CMD_NONE,
                 status := [STATUS_READY, s.expected_data_len % 256, s.expected_data_len / 256] }
      ∧ vendor_writes (rx_chunks s cs).2 =
        [[STATUS_READY, s.expected_data_len % 256, s.expected_data_len / 256]] := by
  induction cs with
  | nil => intro s _ _ hne; exact absurd rfl hne
  | cons c cs ih =>
    intro s hc he _ hpos h
    simp only [List.map_cons, List.sum_cons] at h
    by_cases hcs : cs = []
    · subst hcs
      have h1 := rx_write_done s c c.length hc he (by simpa using h)
      simp [rx_chunks, h1, vendor_writes]
    · have hlast : 1 ≤ (cs.map List.length).sum := by
        cases cs with
        | nil => exact absurd rfl hcs
        | cons d ds =>
          have := hpos d (by simp)
          simp only [List.map_cons, List.sum_cons]
          omega
      have h1 := rx_write_more s c c.length hc he (by omega)
      have h2 := ih { s with handled_data_len := s.handled_data_len + c.length } hc he hcs
        (fun d hd => hpos d (List.mem_cons_of_mem _ hd))
        (by simpa using (by omega : s.handled_data_len + c.length + (cs.map List.length).sum
              = s.expected_data_len))
      simp only [rx_chunks, h1]
      refine ⟨by simpa using h2.1, ?_⟩
      rw [vendor_writes_append]
      simpa [vendor_writes] using h2.2

/-- A proper initial part of positive numbers sums to less than the whole. -/
theorem sum_take_lt (l : List Nat) (hpos : ∀ x ∈ l, 1 ≤ x) :
    ∀ k, k < l.length → (l.take k).sum < l.sum := by
  induction l with
  | nil => intro k hk; simp at hk
  | cons x xs ih =>
    intro k hk
    cases k with
    | zero =>
      have := hpos x (by simp)
      simp only [List.take_zero, List.sum_nil, List.sum_cons]
      omega
    | succ k =>
      have := ih (fun y hy => hpos y (List.mem_cons_of_mem _ hy)) k
        (by simpa using hk)
      simp only [List.take_succ_cons, List.sum_cons]
      omega

/-! ## Write: one Ready frame, on the last chunk -/

/-- C1: for every payload length `n` in 1..65535 and every list of non-empty
chunks whose sizes sum to `n`, the frame `[9, p, n mod 256, n div 256]`
received in Idle followed by the chunks makes the handler write exactly one
frame in total, `[2, n mod 256, n div 256]`; after the frame and any proper
initial part of the chunks nothing has been written yet; and the engine ends
with `current_command = CMD_NONE` and both counters zero. -/
theorem write_payload_one_ready_frame (s : Statics) (p n : Nat) (chunks : List (List Nat))
    (hidle : s.current_command = CMD_NONE) (h1 : 1 ≤ n) (hn : n ≤ 65535)
    (hpos : ∀ c ∈ chunks, 1 ≤ c.length) (hsum : (chunks.map List.length).sum = n) :
    vendor_writes ((tud_vendor_rx_cb s ITF_NUM_VENDOR [9, p, n % 256, n / 256] 4).2 ++
        (rx_chunks (tud_vendor_rx_cb s ITF_NUM_VENDOR [9, p, n % 256, n / 256] 4).1 chunks).2)
      = [[2, n % 256, n / 256]]
    ∧ (∀ k, k < chunks.length →
        vendor_writes ((tud_vendor_rx_cb s ITF_NUM_VENDOR [9, p, n % 256, n / 256] 4).2 ++
          (rx_chunks (tud_vendor_rx_cb s ITF_NUM_VENDOR [9, p, n % 256, n / 256] 4).1
            (chunks.take k)).2) = [])
    ∧ (rx_chunks (tud_vendor_rx_cb s ITF_NUM_VENDOR [9, p, n % 256, n / 256] 4).1
        chunks).1.current_command = CMD_NONE
    ∧ (rx_chunks (tud_vendor_rx_cb s ITF_NUM_VENDOR [9, p, n % 256, n / 256] 4).1
        chunks).1.expected_data_len = 0
    ∧ (rx_chunks (tud_vendor_rx_cb s ITF_NUM_VENDOR [9, p, n % 256, n / 256] 4).1
        chunks).1.handled_data_len = 0 := by
  have hdec : n % 256 + 256 * (n / 256) = n := by omega
  have h0 := rx_cmd_write s p (n % 256) (n / 256) hidle (Nat.mod_lt _ (by decide))
    (by omega) (by omega)
  rw [hdec] at h0
  have h0' : tud_vendor_rx_cb s ITF_NUM_VENDOR [9, p, n % 256, n / 256] 4 =
      ({ s with expected_data_len := n, handled_data_len := 0, current_command := CMD_WRITE },
       [Effect.vendor_read_flush]) := h0
  rw [h0']
  have hne : chunks ≠ [] := by
    intro hnil
    subst hnil
    simp at hsum
    omega
  have hfull := rx_chunks_exact chunks
    { s with expected_data_len := n, handled_data_len := 0, current_command := CMD_WRITE }
    rfl (by show n < 65536; omega) hne hpos (by simpa using hsum)
  refine ⟨?_, ?_, ?_, ?_, ?_⟩
  · rw [vendor_writes_append, hfull.2]
    rfl
  · intro k hk
    have hlt : ((chunks.take k).map List.length).sum < n := by
      have := sum_take_lt (chunks.map List.length)
        (by
          intro x hx
          obtain ⟨c, hc, rfl⟩ := List.mem_map.1 hx
          exact hpos c hc)
        k (by simpa using hk)
      rw [← hsum, List.map_take]
      exact this
    have hshort := rx_chunks_short (chunks.take k)
      { s with expected_data_len := n, handled_data_len := 0, current_command := CMD_WRITE }
      rfl (by show n < 65536; omega) (by simpa using hlt)
    rw [vendor_writes_append, hshort]
    simp [vendor_writes, vendor_writes_read_flushes]
  · rw [hfull.1]
  · rw [hfull.1]
  · rw [hfull.1]

/-- C1 at a concrete input: `Write (5)` from the initial statics, the payload
arriving as a chunk of 2 bytes and a chunk of 3 bytes. -/
theorem write_payload_one_ready_frame_witness :
    vendor_writes ((tud_vendor_rx_cb Statics.init ITF_NUM_VENDOR [9, 16, 5 % 256, 5 / 256] 4).2 ++
        (rx_chunks (tud_vendor_rx_cb Statics.init ITF_NUM_VENDOR [9, 16, 5 % 256, 5 / 256] 4).1
          [[1, 2], [3, 4, 5]]).2)
      = [[2, 5 % 256, 5 / 256]] :=
  (write_payload_one_ready_frame Statics.init 16 5 [[1, 2], [3, 4, 5]] rfl (by decide)
    (by decide) (by decide) (by decide)).1

/-! ## Command frames in Idle -/

/-- C4: a 4-byte frame `[op, p, lo, hi]` with `op = 9` (Write) or `op = 8`
(Read) and `lo + 256 * hi > 0`, received in Idle on the vendor interface,
sets `expected_data_len = lo + 256 * hi`, `handled_data_len = 0` and
`current_command = op`, and the handler writes nothing to the transport (its
only call is the flush of the receive buffer). -/
theorem command_frame_starts_transfer (s : Statics) (op p lo hi : Nat)
    (hidle : s.current_command = CMD_NONE) (hop : op = 9 ∨ op = 8)
    (hlo : lo < 256) (hhi : hi < 256) (hpos : 0 < lo + 256 * hi) :
    tud_vendor_rx_cb s ITF_NUM_VENDOR [op, p, lo, hi] 4 =
        ({ s with expected_data_len := lo + 256 * hi, handled_data_len := 0,
                  current_command := op },
         [Effect.vendor_read_flush])
    ∧ vendor_writes (tud_vendor_rx_cb s ITF_NUM_VENDOR [op, p, lo, hi] 4).2 = [] := by
  rcases hop with rfl | rfl
  · have h := rx_cmd_write s p lo hi hidle hlo hhi hpos
    have h' : tud_vendor_rx_cb s ITF_NUM_VENDOR [9, p, lo, hi] 4 =
        ({ s with expected_data_len := lo + 256 * hi, handled_data_len := 0,
                  current_command := 9 },
         [Effect.vendor_read_flush]) := h
    rw [h']
    exact ⟨rfl, rfl⟩
  · have h := rx_cmd_read s p lo hi hidle hlo hhi hpos
    have h' : tud_vendor_rx_cb s ITF_NUM_VENDOR [8, p, lo, hi] 4 =
        ({ s with expected_data_len := lo + 256 * hi, handled_data_len := 0,
                  current_command := 8 },
         [Effect.vendor_read_flush]) := h
    rw [h']
    exact ⟨rfl, rfl⟩

/-- C4 at a concrete input: `Read (0x0102)` from the initial statics. -/
theorem command_frame_starts_transfer_witness :
    tud_vendor_rx_cb Statics.init ITF_NUM_VENDOR [8, 16, 2, 1] 4 =
      ({ Statics.init with expected_data_len := 2 + 256 * 1, handled_data_len := 0,
                           current_command := 8 },
       [Effect.vendor_read_flush]) :=
  (command_frame_starts_transfer Statics.init 8 16 2 1 rfl (Or.inr rfl) (by decide)
    (by decide) (by decide)).1

/-- C7: a chunk whose length is not 4, received on the vendor interface
while `current_command = CMD_NONE`, makes the handler write exactly the frame
`[3, 0, 0]` (and flush it), and leaves `current_command`, `expected_data_len`
and `handled_data_len` as they were. -/
theorem bad_length_in_idle_is_error (s : Statics) (buffer : List Nat) (bufsize : Nat)
    (hidle : s.current_command = CMD_NONE) (hlen : bufsize ≠ 4) :
    (tud_vendor_rx_cb s ITF_NUM_VENDOR buffer bufsize).2 =
        [Effect.vendor_write [3, 0, 0], Effect.vendor_write_flush]
    ∧ (tud_vendor_rx_cb s ITF_NUM_VENDOR buffer bufsize).1.current_command = s.current_command
    ∧ (tud_vendor_rx_cb s ITF_NUM_VENDOR buffer bufsize).1.expected_data_len
        = s.expected_data_len
    ∧ (tud_vendor_rx_cb s ITF_NUM_VENDOR buffer bufsize).1.handled_data_len
        = s.handled_data_len := by
  have h : ¬ bufsize = COMMAND_LEN := hlen
  simp [tud_vendor_rx_cb, send_status_response, hidle, h, STATUS_ERROR, STATUS_LEN]

/-- C7 at concrete inputs: an empty chunk and a chunk of 5 bytes, in the
initial state. -/
theorem bad_length_in_idle_is_error_witness :
    (tud_vendor_rx_cb Statics.init ITF_NUM_VENDOR [] 0).2 =
        [Effect.vendor_write [3, 0, 0], Effect.vendor_write_flush]
    ∧ (tud_vendor_rx_cb Statics.init ITF_NUM_VENDOR [9, 16, 1, 0, 7] 5).2 =
        [Effect.vendor_write [3, 0, 0], Effect.vendor_write_flush] :=
  ⟨(bad_length_in_idle_is_error Statics.init [] 0 rfl (by decide)).1,
   (bad_length_in_idle_is_error Statics.init [9, 16, 1, 0, 7] 5 rfl (by decide)).1⟩

/-- C8: a 4-byte frame received in Idle whose first byte is neither 8 nor 9
makes the handler write exactly the frame `[3, 0, 0]` (then flush the write
and the receive buffer), and leaves `current_command = CMD_NONE` and the two
counters as they were. -/
theorem unknown_opcode_is_error (s : Statics) (b0 b1 b2 b3 : Nat)
    (hidle : s.current_command = CMD_NONE) (h8 : b0 ≠ 8) (h9 : b0 ≠ 9) :
    (tud_vendor_rx_cb s ITF_NUM_VENDOR [b0, b1, b2, b3] 4).2 =
        [Effect.vendor_write [3, 0, 0], Effect.vendor_write_flush, Effect.vendor_read_flush]
    ∧ (tud_vendor_rx_cb s ITF_NUM_VENDOR [b0, b1, b2, b3] 4).1.current_command = CMD_NONE
    ∧ (tud_vendor_rx_cb s ITF_NUM_VENDOR [b0, b1, b2, b3] 4).1.expected_data_len
        = s.expected_data_len
    ∧ (tud_vendor_rx_cb s ITF_NUM_VENDOR [b0, b1, b2, b3] 4).1.handled_data_len
        = s.handled_data_len := by
  have hr : ¬ b0 = CMD_READ := h8
  have hw : ¬ b0 = CMD_WRITE := h9
  simp [tud_vendor_rx_cb, rx_tail, send_status_response, hidle, hr, hw, STATUS_ERROR,
    STATUS_LEN, COMMAND_LEN, CFG_TUD_VENDOR_RX_BUFSIZE]

/-- C8 at a concrete input: opcode 7 with a non-zero length field. -/
theorem unknown_opcode_is_error_witness :
    (tud_vendor_rx_cb Statics.init ITF_NUM_VENDOR [7, 16, 5, 1] 4).2 =
      [Effect.vendor_write [3, 0, 0], Effect.vendor_write_flush, Effect.vendor_read_flush] :=
  (unknown_opcode_is_error Statics.init 7 16 5 1 rfl (by decide) (by decide)).1

/-- C9: any chunk received on the vendor interface while
`current_command = CMD_READ` makes the handler write exactly the frame
`[1, 0, 0]` (then flush the write and the receive buffer), and leaves
`current_command`, `expected_data_len` and `handled_data_len` as they were. -/
theorem data_during_read_is_busy (s : Statics) (buffer : List Nat) (bufsize : Nat)
    (hread : s.current_command = CMD_READ) :
    (tud_vendor_rx_cb s ITF_NUM_VENDOR buffer bufsize).2 =
        [Effect.vendor_write [1, 0, 0], Effect.vendor_write_flush, Effect.vendor_read_flush]
    ∧ (tud_vendor_rx_cb s ITF_NUM_VENDOR buffer bufsize).1.current_command = s.current_command
    ∧ (tud_vendor_rx_cb s ITF_NUM_VENDOR buffer bufsize).1.expected_data_len
        = s.expected_data_len
    ∧ (tud_vendor_rx_cb s ITF_NUM_VENDOR buffer bufsize).1.handled_data_len
        = s.handled_data_len := by
  simp [tud_vendor_rx_cb, rx_tail, send_status_response, hread, STATUS_BUSY, STATUS_LEN,
    CMD_READ, CMD_NONE, CMD_WRITE, CFG_TUD_VENDOR_RX_BUFSIZE]

/-- C9 at a concrete input: a well-formed Write frame arriving in the middle
of a Read of 100 bytes of which 64 are sent. -/
theorem data_during_read_is_busy_witness :
    (tud_vendor_rx_cb
        { Statics.init with current_command := CMD_READ, expected_data_len := 100,
                            handled_data_len := 64 }
        ITF_NUM_VENDOR [9, 16, 3, 0] 4).2 =
      [Effect.vendor_write [1, 0, 0], Effect.vendor_write_flush, Effect.vendor_read_flush] :=
  (data_during_read_is_busy
    { Statics.init with current_command := CMD_READ, expected_data_len := 100,
                        handled_data_len := 64 }
    [9, 16, 3, 0] 4 rfl).1

/-! ## Lifecycle events -/

/-- C10: from every state, each of `tud_mount_cb`, `tud_umount_cb`,
`tud_suspend_cb` (either flag) and `tud_resume_cb` leaves
`current_command = CMD_NONE`, `expected_data_len = 0`, `handled_data_len = 0`
and makes no transport call at all. -/
theorem lifecycle_event_resets (s : Statics) (remote_wakeup_en : Bool) :
    (∀ r ∈ [tud_mount_cb s, tud_umount_cb s, tud_suspend_cb s remote_wakeup_en,
            tud_resume_cb s],
      r.1.current_command = CMD_NONE ∧ r.1.expected_data_len = 0 ∧ r.1.handled_data_len = 0
      ∧ r.2 = []) := by
  simp [tud_mount_cb, tud_umount_cb, tud_suspend_cb, tud_resume_cb, init_protocol_handling,
    reset_data]

/-- C10 at a concrete input: a suspend in the middle of a Write of 20 bytes
of which 10 are received. -/
theorem lifecycle_event_resets_witness :
    (tud_suspend_cb
        { Statics.init with current_command := CMD_WRITE, expected_data_len := 20,
                            handled_data_len := 10 } true).1.current_command = CMD_NONE
    ∧ (tud_suspend_cb
        { Statics.init with current_command := CMD_WRITE, expected_data_len := 20,
                            handled_data_len := 10 } true).1.expected_data_len = 0
    ∧ (tud_suspend_cb
        { Statics.init with current_command := CMD_WRITE, expected_data_len := 20,
                            handled_data_len := 10 } true).1.handled_data_len = 0
    ∧ (tud_suspend_cb
        { Statics.init with current_command := CMD_WRITE, expected_data_len := 20,
                            handled_data_len := 10 } true).2 = [] :=
  lifecycle_event_resets
    { Statics.init with current_command := CMD_WRITE, expected_data_len := 20,
                        handled_data_len := 10 } true _
    (List.mem_cons_of_mem _ (List.mem_cons_of_mem _ (List.mem_cons_self _ _)))

/-! ## The poll step -/

theorem take_memset (buf : List Nat) (c n : Nat) :
    (memset buf c n).take n = List.replicate n c := by
  unfold memset
  exact List.take_left' (by simp)

theorem poll_not_read (t : Transport) (s : Statics) (hc : s.current_command ≠ CMD_READ) :
    maybe_send_data t s = (s, []) := by
  simp [maybe_send_data, hc]

theorem poll_read (t : Transport) (s : Statics) (hc : s.current_command = CMD_READ)
    (he : s.expected_data_len < 65536) (hlt : s.handled_data_len < s.expected_data_len)
    (hw : ∀ bytes, t.write bytes ≤ bytes.length) :
    ∃ k, k ≤ 64 ∧ k ≤ t.write_available ∧ k ≤ s.expected_data_len - s.handled_data_len
      ∧ t.write (List.replicate k 0x78) % 2 ^ 32 ≤ k
      ∧ (maybe_send_data t s).2 =
          [Effect.vendor_write_available, Effect.vendor_write (List.replicate k 0x78),
           Effect.vendor_write_flush]
      ∧ ((s.handled_data_len + t.write (List.replicate k 0x78) % 2 ^ 32 < s.expected_data_len
          ∧ (maybe_send_data t s).1.current_command = CMD_READ
          ∧ (maybe_send_data t s).1.expected_data_len = s.expected_data_len
          ∧ (maybe_send_data t s).1.handled_data_len
              = s.handled_data_len + t.write (List.replicate k 0x78) % 2 ^ 32)
        ∨ (s.handled_data_len + t.write (List.replicate k 0x78) % 2 ^ 32 = s.expected_data_len
          ∧ (maybe_send_data t s).1.current_command = CMD_NONE
          ∧ (maybe_send_data t s).1.expected_data_len = 0
          ∧ (maybe_send_data t s).1.handled_data_len = 0)) := by
  have hwant : (s.expected_data_len + 65536 - s.handled_data_len) % 65536
      = s.expected_data_len - s.handled_data_len := by omega
  have hav : t.write_available % 2 ^ 32 ≤ t.write_available := Nat.mod_le _ _
  simp only [maybe_send_data, hc, if_true, take_memset, hwant]
  generalize hk : (if (if s.expected_data_len - s.handled_data_len > t.write_available % 2 ^ 32
        then t.write_available % 2 ^ 32 % 65536
        else s.expected_data_len - s.handled_data_len) > 64 then 64
      else (if s.expected_data_len - s.handled_data_len > t.write_available % 2 ^ 32
        then t.write_available % 2 ^ 32 % 65536
        else s.expected_data_len - s.handled_data_len)) = k
  have hk64 : k ≤ 64 := by rw [← hk]; split_ifs <;> omega
  have hkav : k ≤ t.write_available := by rw [← hk]; split_ifs <;> omega
  have hkw : k ≤ s.expected_data_len - s.handled_data_len := by rw [← hk]; split_ifs <;> omega
  have hsent : t.write (List.replicate k 0x78) ≤ k := by simpa using hw (List.replicate k 0x78)
  have hsent2 : t.write (List.replicate k 0x78) % 2 ^ 32 ≤ k :=
    le_trans (Nat.mod_le _ _) hsent
  refine ⟨k, hk64, hkav, hkw, hsent2, ?_, ?_⟩
  · split_ifs <;> rfl
  · have hm : (s.handled_data_len + t.write (List.replicate k 0x78) % 2 ^ 32) % 65536
        = s.handled_data_len + t.write (List.replicate k 0x78) % 2 ^ 32 :=
      Nat.mod_eq_of_lt (by omega)
    rw [hm]
    by_cases hdone : s.handled_data_len + t.write (List.replicate k 0x78) % 2 ^ 32
        ≥ s.expected_data_len
    · right
      rw [if_pos hdone]
      exact ⟨by omega, rfl, rfl, rfl⟩
    · left
      rw [if_neg hdone]
      exact ⟨by omega, rfl, rfl, rfl⟩


theorem poll_run_idle (ts : List Transport) :
    ∀ s : Statics, s.current_command ≠ CMD_READ →
      poll_run s ts = (s, ts.map (fun t => (t, []))) := by
  induction ts with
  | nil => intro s _; rfl
  | cons t ts ih =>
    intro s hc
    simp [poll_run, poll_not_read t s hc, ih s hc]

theorem accepted_total_idle (ts : List Transport) :
    accepted_total (ts.map (fun t => (t, []))) = 0 := by
  induction ts with
  | nil => rfl
  | cons t ts ih =>
    simp only [accepted_total, List.map_cons, List.sum_cons] at ih ⊢
    rw [ih]
    rfl

/-- What holds of the engine during a Read of `n` bytes of which `acc` are
accepted so far. -/
theorem poll_run_read (n : Nat) (hn : n < 65536) (ts : List Transport) :
    ∀ (s : Statics) (acc : Nat),
      (∀ t ∈ ts, ∀ bytes, t.write bytes ≤ bytes.length) →
      ((s.current_command = CMD_READ ∧ s.expected_data_len = n ∧ s.handled_data_len = acc
          ∧ acc < n) ∨ (s.current_command = CMD_NONE ∧ acc = n)) →
      (((poll_run s ts).1.current_command = CMD_READ
          ∧ (poll_run s ts).1.expected_data_len = n
          ∧ (poll_run s ts).1.handled_data_len = acc + accepted_total (poll_run s ts).2
          ∧ acc + accepted_total (poll_run s ts).2 < n)
        ∨ ((poll_run s ts).1.current_command = CMD_NONE
          ∧ acc + accepted_total (poll_run s ts).2 = n))
      ∧ ∀ p ∈ (poll_run s ts).2, ∀ bytes ∈ vendor_writes p.2,
          bytes.length ≤ 64 ∧ bytes.length ≤ p.1.write_available
          ∧ bytes = List.replicate bytes.length 0x78 := by
  induction ts with
  | nil =>
    intro s acc _ hinv
    simpa [poll_run, accepted_total] using hinv
  | cons t ts ih =>
    intro s acc hw hinv
    have hwt := hw t (by simp)
    have hwts : ∀ u ∈ ts, ∀ bytes, u.write bytes ≤ bytes.length :=
      fun u hu => hw u (List.mem_cons_of_mem _ hu)
    rcases hinv with ⟨hc, he, hh, hlt⟩ | ⟨hc, hacc⟩
    · obtain ⟨k, hk64, hkav, _, _, htrace, hstate⟩ :=
        poll_read t s hc (by omega) (by omega) hwt
      have hacc1 : accepted t (maybe_send_data t s).2 = t.write (List.replicate k 0x78) % 2 ^ 32 := by
        rw [htrace]
        simp [accepted, vendor_writes]
      have hinv1 : (((maybe_send_data t s).1.current_command = CMD_READ
            ∧ (maybe_send_data t s).1.expected_data_len = n
            ∧ (maybe_send_data t s).1.handled_data_len
                = acc + t.write (List.replicate k 0x78) % 2 ^ 32
            ∧ acc + t.write (List.replicate k 0x78) % 2 ^ 32 < n)
          ∨ ((maybe_send_data t s).1.current_command = CMD_NONE
            ∧ acc + t.write (List.replicate k 0x78) % 2 ^ 32 = n)) := by
        rcases hstate with ⟨h1, h2, h3, h4⟩ | ⟨h1, h2, _, _⟩
        · left
          exact ⟨h2, by omega, by omega, by omega⟩
        · right
          exact ⟨h2, by omega⟩
      have hrec := ih (maybe_send_data t s).1 (acc + t.write (List.replicate k 0x78) % 2 ^ 32)
        hwts hinv1
      have htot : accepted_total (poll_run s (t :: ts)).2 =
          t.write (List.replicate k 0x78) % 2 ^ 32
            + accepted_total (poll_run (maybe_send_data t s).1 ts).2 := by
        simp [poll_run, accepted_total, hacc1]
      refine ⟨?_, ?_⟩
      · rw [htot, ← Nat.add_assoc]
        exact hrec.1
      · intro p hp bytes hb
        simp only [poll_run, List.mem_cons] at hp
        rcases hp with rfl | hp
        · simp only [htrace, vendor_writes, List.mem_singleton] at hb
          subst hb
          simp [hk64, hkav]
        · exact hrec.2 p hp bytes hb
    · have hnr : s.current_command ≠ CMD_READ := by rw [hc]; decide
      rw [poll_run_idle (t :: ts) s hnr]
      refine ⟨Or.inr ⟨hc, ?_⟩, ?_⟩
      · rw [accepted_total_idle, hacc]
        rfl
      · intro p hp bytes hb
        simp only [List.mem_map] at hp
        obtain ⟨u, _, rfl⟩ := hp
        simp [vendor_writes] at hb


/-! ## Read: data only, in bounded chunks -/

/-- C2: after the frame `[8, p, lo, hi]` with `lo + 256 * hi = n`, `n` in
1..65535, received in Idle, and for every sequence of polls against
transports whose write accepts at most the bytes offered: every write of
every poll offers at most 64 bytes and at most the space reported at that
poll, and offers only fill bytes `0x78`, so that no write is a status frame
(its first byte is none of the status codes); the frame itself makes the
handler write nothing; the total of accepted bytes is at most `n`; and
`current_command = CMD_NONE` holds exactly when that total equals `n`. -/
theorem read_poll_contract (s : Statics) (p lo hi n : Nat) (ts : List Transport)
    (hidle : s.current_command = CMD_NONE) (hlo : lo < 256) (hhi : hi < 256)
    (hlen : lo + 256 * hi = n) (h1 : 1 ≤ n) (hn : n ≤ 65535)
    (hw : ∀ t ∈ ts, ∀ bytes, t.write bytes ≤ bytes.length) :
    (∀ q ∈ (poll_run (tud_vendor_rx_cb s ITF_NUM_VENDOR [8, p, lo, hi] 4).1 ts).2,
      ∀ bytes ∈ vendor_writes q.2,
        bytes.length ≤ 64 ∧ bytes.length ≤ q.1.write_available
        ∧ (∀ x ∈ bytes, x = 0x78)
        ∧ bytes.head? ≠ some STATUS_BUSY ∧ bytes.head? ≠ some STATUS_READY
        ∧ bytes.head? ≠ some STATUS_ERROR)
    ∧ vendor_writes (tud_vendor_rx_cb s ITF_NUM_VENDOR [8, p, lo, hi] 4).2 = []
    ∧ accepted_total (poll_run (tud_vendor_rx_cb s ITF_NUM_VENDOR [8, p, lo, hi] 4).1 ts).2 ≤ n
    ∧ ((poll_run (tud_vendor_rx_cb s ITF_NUM_VENDOR [8, p, lo, hi] 4).1 ts).1.current_command
          = CMD_NONE
        ↔ accepted_total (poll_run (tud_vendor_rx_cb s ITF_NUM_VENDOR [8, p, lo, hi] 4).1 ts).2
          = n) := by
  have h0 := rx_cmd_read s p lo hi hidle hlo hhi (by omega)
  have h0' : tud_vendor_rx_cb s ITF_NUM_VENDOR [8, p, lo, hi] 4 =
      ({ s with expected_data_len := lo + 256 * hi, handled_data_len := 0,
                current_command := CMD_READ },
       [Effect.vendor_read_flush]) := h0
  rw [h0']
  dsimp only
  have hrun := poll_run_read n (by omega) ts
    { s with expected_data_len := lo + 256 * hi, handled_data_len := 0,
             current_command := CMD_READ } 0 hw
    (Or.inl ⟨rfl, hlen, rfl, by omega⟩)
  simp only [Nat.zero_add] at hrun
  refine ⟨?_, rfl, ?_, ?_⟩
  · intro q hq bytes hb
    obtain ⟨h64, hav, hfill⟩ := hrun.2 q hq bytes hb
    have hall : ∀ x ∈ bytes, x = 0x78 := by
      intro x hx
      rw [hfill] at hx
      exact (List.mem_replicate.1 hx).2
    have hhead : ∀ c, c ≠ 0x78 → bytes.head? ≠ some c := by
      intro c hc hh
      have hmem : c ∈ bytes := List.mem_of_mem_head? hh
      exact hc (hall c hmem)
    exact ⟨h64, hav, hall, hhead _ (by decide), hhead _ (by decide), hhead _ (by decide)⟩
  · rcases hrun.1 with ⟨_, _, _, hlt⟩ | ⟨_, heq⟩ <;> omega
  · rcases hrun.1 with ⟨hc, _, _, hlt⟩ | ⟨hc, heq⟩
    · constructor
      · intro hnone
        rw [hc] at hnone
        exact absurd hnone (by decide)
      · intro heq
        omega
    · exact ⟨fun _ => heq, fun _ => hc⟩

/-- C2 at a concrete input: `Read (100)` from the initial statics, polled
against a transport with 64 bytes of space that takes all it is offered and
then one with 10 bytes of space that takes half. -/
theorem read_poll_contract_witness :
    accepted_total (poll_run (tud_vendor_rx_cb Statics.init ITF_NUM_VENDOR [8, 16, 100, 0] 4).1
      [⟨64, fun bytes => bytes.length, fun _ => true⟩,
       ⟨10, fun bytes => bytes.length / 2, fun _ => true⟩]).2 ≤ 100 :=
  (read_poll_contract Statics.init 16 100 0 100
    [⟨64, fun bytes => bytes.length, fun _ => true⟩,
     ⟨10, fun bytes => bytes.length / 2, fun _ => true⟩]
    rfl (by decide) (by decide) (by decide) (by decide) (by decide)
    (by
      intro t ht bytes
      simp only [List.mem_cons, List.mem_singleton, List.not_mem_nil, or_false] at ht
      rcases ht with rfl | rfl
      · exact le_refl _
      · exact Nat.div_le_self _ _)).2.2.1

/-- C5: the frame `[9, p, 0, 0]` received in Idle makes the handler write
exactly one frame, `[2, 0, 0]`, in that call, and leaves
`current_command = CMD_NONE` with both counters zero; the chunk that follows
is therefore taken as a command: when its length is not 4 it is answered with
the Error frame of the command-length check. -/
theorem write_zero_ready_at_once (s : Statics) (p : Nat)
    (hidle : s.current_command = CMD_NONE) :
    (tud_vendor_rx_cb s ITF_NUM_VENDOR [9, p, 0, 0] 4).2 =
        [Effect.vendor_write [2, 0, 0], Effect.vendor_write_flush, Effect.vendor_read_flush]
    ∧ (tud_vendor_rx_cb s ITF_NUM_VENDOR [9, p, 0, 0] 4).1.current_command = CMD_NONE
    ∧ (tud_vendor_rx_cb s ITF_NUM_VENDOR [9, p, 0, 0] 4).1.expected_data_len = 0
    ∧ (tud_vendor_rx_cb s ITF_NUM_VENDOR [9, p, 0, 0] 4).1.handled_data_len = 0
    ∧ (∀ buffer bufsize, bufsize ≠ 4 →
        (tud_vendor_rx_cb (tud_vendor_rx_cb s ITF_NUM_VENDOR [9, p, 0, 0] 4).1
          ITF_NUM_VENDOR buffer bufsize).2 =
          [Effect.vendor_write [3, 0, 0], Effect.vendor_write_flush]) := by
  have h : tud_vendor_rx_cb s ITF_NUM_VENDOR [9, p, 0, 0] 4 =
      ({ s with expected_data_len := 0, handled_data_len := 0,
                status := (memset s.status 0 STATUS_LEN).set 0 STATUS_READY },
       [Effect.vendor_write [2, 0, 0], Effect.vendor_write_flush,
        Effect.vendor_read_flush]) := by
    simp [tud_vendor_rx_cb, rx_tail, hidle, CMD_WRITE, COMMAND_LEN, CFG_TUD_VENDOR_RX_BUFSIZE,
      memset, STATUS_LEN, STATUS_READY, List.replicate]
  rw [h]
  refine ⟨rfl, hidle, rfl, rfl, ?_⟩
  intro buffer bufsize hlen
  have hl : ¬ bufsize = COMMAND_LEN := hlen
  simp [tud_vendor_rx_cb, send_status_response, hidle, hl, STATUS_ERROR, STATUS_LEN]

/-- C5 at a concrete input: `Write (0)` in the initial state. -/
theorem write_zero_ready_at_once_witness :
    (tud_vendor_rx_cb Statics.init ITF_NUM_VENDOR [9, 16, 0, 0] 4).2 =
      [Effect.vendor_write [2, 0, 0], Effect.vendor_write_flush, Effect.vendor_read_flush] :=
  (write_zero_ready_at_once Statics.init 16 rfl).1

/-- C6: the frame `[8, p, 0, 0]` received in Idle makes no write at all (the
only transport call is the flush of the receive buffer), leaves
`current_command = CMD_NONE` with both counters zero, and every sequence of
polls after it makes no transport call and changes nothing. -/
theorem read_zero_is_silent (s : Statics) (p : Nat) (ts : List Transport)
    (hidle : s.current_command = CMD_NONE) :
    (tud_vendor_rx_cb s ITF_NUM_VENDOR [8, p, 0, 0] 4).2 = [Effect.vendor_read_flush]
    ∧ vendor_writes (tud_vendor_rx_cb s ITF_NUM_VENDOR [8, p, 0, 0] 4).2 = []
    ∧ (tud_vendor_rx_cb s ITF_NUM_VENDOR [8, p, 0, 0] 4).1.current_command = CMD_NONE
    ∧ (tud_vendor_rx_cb s ITF_NUM_VENDOR [8, p, 0, 0] 4).1.expected_data_len = 0
    ∧ (tud_vendor_rx_cb s ITF_NUM_VENDOR [8, p, 0, 0] 4).1.handled_data_len = 0
    ∧ poll_run (tud_vendor_rx_cb s ITF_NUM_VENDOR [8, p, 0, 0] 4).1 ts =
        ((tud_vendor_rx_cb s ITF_NUM_VENDOR [8, p, 0, 0] 4).1, ts.map (fun t => (t, []))) := by
  have h : tud_vendor_rx_cb s ITF_NUM_VENDOR [8, p, 0, 0] 4 =
      ({ s with expected_data_len := 0, handled_data_len := 0, current_command := CMD_NONE },
       [Effect.vendor_read_flush]) := by
    simp [tud_vendor_rx_cb, rx_tail, reset_data, hidle, CMD_WRITE, CMD_READ, COMMAND_LEN,
      CFG_TUD_VENDOR_RX_BUFSIZE]
  rw [h]
  refine ⟨rfl, rfl, rfl, rfl, rfl, ?_⟩
  exact poll_run_idle ts _ (by show CMD_NONE ≠ CMD_READ; decide)

/-- C6 at a concrete input: `Read (0)` in the initial state. -/
theorem read_zero_is_silent_witness :
    (tud_vendor_rx_cb Statics.init ITF_NUM_VENDOR [8, 16, 0, 0] 4).2
      = [Effect.vendor_read_flush] :=
  (read_zero_is_silent Statics.init 16 [] rfl).1

/-! ## The counters -/

/-- C3 fails on the code: from the initial statics, a Write frame declaring
10 bytes followed by one chunk of 20 bytes leaves `handled_data_len = 20`
above `expected_data_len = 10`, with the Write still in progress. -/
theorem write_overrun_breaks_counter_order (b : Build) :
    (run b Statics.init
        [Event.rx ITF_NUM_VENDOR [9, 16, 10, 0] 4,
         Event.rx ITF_NUM_VENDOR (List.replicate 20 0) 20]).1.handled_data_len = 20
    ∧ (run b Statics.init
        [Event.rx ITF_NUM_VENDOR [9, 16, 10, 0] 4,
         Event.rx ITF_NUM_VENDOR (List.replicate 20 0) 20]).1.expected_data_len = 10
    ∧ (run b Statics.init
        [Event.rx ITF_NUM_VENDOR [9, 16, 10, 0] 4,
         Event.rx ITF_NUM_VENDOR (List.replicate 20 0) 20]).1.current_command = CMD_WRITE
    ∧ ¬ ((run b Statics.init
          [Event.rx ITF_NUM_VENDOR [9, 16, 10, 0] 4,
           Event.rx ITF_NUM_VENDOR (List.replicate 20 0) 20]).1.handled_data_len
        ≤ (run b Statics.init
          [Event.rx ITF_NUM_VENDOR [9, 16, 10, 0] 4,
           Event.rx ITF_NUM_VENDOR (List.replicate 20 0) 20]).1.expected_data_len) := by
  refine ⟨rfl, rfl, rfl, ?_⟩
  show ¬ (20 ≤ 10)
  decide

/-! ## The status frame -/

/-- C11: for every status byte `sv` and every 16-bit length `n`,
`send_status_response` hands the transport exactly the 3 bytes
`[sv, n mod 256, n div 256]` (then flushes); bytes 1 and 2 of that frame,
put through the little-endian rule of the command parser, give back `n`:
as `b1 + 256 * b2`, as the parser's expression `b1 | (b2 << 8)`, and as the
`expected_data_len` the receive handler takes from a Write frame that carries
them. -/
theorem status_frame_layout (s : Statics) (sv n : Nat) (hn : n < 65536) :
    (send_status_response s sv n).2 =
        [Effect.vendor_write [sv, n % 256, n / 256], Effect.vendor_write_flush]
    ∧ n % 256 + 256 * (n / 256) = n
    ∧ (n % 256 ||| ((n / 256) <<< 8)) % 65536 = n
    ∧ (∀ (s0 : Statics) (p : Nat), s0.current_command = CMD_NONE →
        (tud_vendor_rx_cb s0 ITF_NUM_VENDOR [9, p, n % 256, n / 256] 4).1.expected_data_len
          = n) := by
  refine ⟨?_, by omega, le16_roundtrip n hn, ?_⟩
  · simp [send_status_response, STATUS_LEN, status_lo, status_hi n hn]
  · intro s0 p hidle
    have hr := le16_roundtrip n hn
    by_cases h0 : n = 0
    · subst h0
      simp [tud_vendor_rx_cb, rx_tail, hidle, CMD_WRITE, COMMAND_LEN, CFG_TUD_VENDOR_RX_BUFSIZE]
    · simp [tud_vendor_rx_cb, rx_tail, hidle, CMD_WRITE, COMMAND_LEN, CFG_TUD_VENDOR_RX_BUFSIZE,
        hr, h0]

/-- C11 at a concrete input: Ready with length `0x1234`. -/
theorem status_frame_layout_witness :
    (send_status_response Statics.init STATUS_READY 0x1234).2 =
      [Effect.vendor_write [STATUS_READY, 0x1234 % 256, 0x1234 / 256],
       Effect.vendor_write_flush] :=
  (status_frame_layout Statics.init STATUS_READY 0x1234 (by decide)).1

/-! ## The control dispatcher -/

/-- C12: for a class-type request to the vendor interface at the setup stage
with request id Echo: with direction In the dispatcher hands
`tud_control_xfer` exactly the one byte `0x00` (and returns what it returns),
and `current_command`, `expected_data_len` and `handled_data_len` stay as
they were; with any other direction it returns false and makes no transport
call. -/
theorem control_echo (b : Build) (t : Transport) (s : Statics) (rhport : Nat)
    (request : ControlRequest)
    (hty : request.bmRequestType_type = TUSB_REQ_TYPE_CLASS)
    (hitf : request.wIndex = ITF_NUM_VENDOR) (hreq : request.bRequest = CTRL_ECHO) :
    (request.bmRequestType_direction = TUSB_DIR_IN →
      (tud_vendor_control_xfer_cb b t s rhport CONTROL_STAGE_SETUP request).effects
          = [Effect.control_xfer [0x00]]
      ∧ (tud_vendor_control_xfer_cb b t s rhport CONTROL_STAGE_SETUP request).ret
          = some (t.control_xfer [0x00])
      ∧ (tud_vendor_control_xfer_cb b t s rhport CONTROL_STAGE_SETUP request).st.current_command
          = s.current_command
      ∧ (tud_vendor_control_xfer_cb b t s rhport CONTROL_STAGE_SETUP request).st.expected_data_len
          = s.expected_data_len
      ∧ (tud_vendor_control_xfer_cb b t s rhport CONTROL_STAGE_SETUP request).st.handled_data_len
          = s.handled_data_len)
    ∧ (request.bmRequestType_direction ≠ TUSB_DIR_IN →
      (tud_vendor_control_xfer_cb b t s rhport CONTROL_STAGE_SETUP request).effects = []
      ∧ (tud_vendor_control_xfer_cb b t s rhport CONTROL_STAGE_SETUP request).ret
          = some false) := by
  constructor
  · intro hdir
    simp [tud_vendor_control_xfer_cb, ctrl_send, memset, hty, hitf, hreq, hdir, CTRL_ECHO,
      List.replicate]
  · intro hdir
    simp [tud_vendor_control_xfer_cb, hty, hitf, hreq, hdir]

/-- C12 at concrete inputs: an Echo with direction In and one with direction
Out, in the initial state. -/
theorem control_echo_witness :
    (tud_vendor_control_xfer_cb ⟨[], [], [], true⟩ ⟨0, fun _ => 0, fun _ => true⟩ Statics.init 0
        CONTROL_STAGE_SETUP ⟨1, 1, 0, 0, 0, 1⟩).effects = [Effect.control_xfer [0x00]]
    ∧ (tud_vendor_control_xfer_cb ⟨[], [], [], true⟩ ⟨0, fun _ => 0, fun _ => true⟩ Statics.init 0
        CONTROL_STAGE_SETUP ⟨0, 1, 0, 0, 0, 1⟩).ret = some false :=
  ⟨((control_echo ⟨[], [], [], true⟩ ⟨0, fun _ => 0, fun _ => true⟩ Statics.init 0
      ⟨1, 1, 0, 0, 0, 1⟩ rfl rfl rfl).1 rfl).1,
   ((control_echo ⟨[], [], [], true⟩ ⟨0, fun _ => 0, fun _ => true⟩ Statics.init 0
      ⟨0, 1, 0, 0, 0, 1⟩ rfl rfl rfl).2 (by decide)).2⟩

/-- C13: from every state, a class-type request to the vendor interface at
the setup stage with request id Init and direction In leaves
`current_command = CMD_NONE` and both counters zero, hands `tud_control_xfer`
exactly the 8 bytes `[0x08, 0x03, 0, 0, 0, 0, 0, 0]`, and makes no other
transport call (nothing goes to the bulk pipe). -/
theorem control_init (b : Build) (t : Transport) (s : Statics) (rhport : Nat)
    (request : ControlRequest)
    (hty : request.bmRequestType_type = TUSB_REQ_TYPE_CLASS)
    (hitf : request.wIndex = ITF_NUM_VENDOR) (hreq : request.bRequest = CTRL_INIT)
    (hdir : request.bmRequestType_direction = TUSB_DIR_IN) :
    (tud_vendor_control_xfer_cb b t s rhport CONTROL_STAGE_SETUP request).effects
        = [Effect.control_xfer [0x08, 0x03, 0, 0, 0, 0, 0, 0]]
    ∧ vendor_writes (tud_vendor_control_xfer_cb b t s rhport CONTROL_STAGE_SETUP request).effects
        = []
    ∧ (tud_vendor_control_xfer_cb b t s rhport CONTROL_STAGE_SETUP request).st.current_command
        = CMD_NONE
    ∧ (tud_vendor_control_xfer_cb b t s rhport CONTROL_STAGE_SETUP request).st.expected_data_len
        = 0
    ∧ (tud_vendor_control_xfer_cb b t s rhport CONTROL_STAGE_SETUP request).st.handled_data_len
        = 0 := by
  simp [tud_vendor_control_xfer_cb, ctrl_send, memset, init_protocol_handling, reset_data, hty,
    hitf, hreq, hdir, CTRL_ECHO, CTRL_INIT, List.replicate, vendor_writes]

/-- C13 at a concrete input: an Init in the middle of a Write of 20 bytes of
which 10 are received. -/
theorem control_init_witness :
    (tud_vendor_control_xfer_cb ⟨[], [], [], true⟩ ⟨0, fun _ => 0, fun _ => true⟩
        { Statics.init with current_command := CMD_WRITE, expected_data_len := 20,
                            handled_data_len := 10 }
        0 CONTROL_STAGE_SETUP ⟨1, 1, 1, 0, 0, 8⟩).st.current_command = CMD_NONE :=
  (control_init ⟨[], [], [], true⟩ ⟨0, fun _ => 0, fun _ => true⟩
    { Statics.init with current_command := CMD_WRITE, expected_data_len := 20,
                        handled_data_len := 10 }
    0 ⟨1, 1, 1, 0, 0, 8⟩ rfl rfl rfl rfl).2.2.1

/-- C14: a control request whose type is not class, or whose `wIndex` is not
the vendor interface, is refused at every stage, whatever its request id and
direction: the dispatcher returns false, makes no transport call (no control
response, no reboot) and leaves all the statics as they were. -/
theorem control_wrong_type_or_interface (b : Build) (t : Transport) (s : Statics)
    (rhport stage : Nat) (request : ControlRequest)
    (h : request.bmRequestType_type ≠ TUSB_REQ_TYPE_CLASS ∨ request.wIndex ≠ ITF_NUM_VENDOR) :
    (tud_vendor_control_xfer_cb b t s rhport stage request).ret = some false
    ∧ (tud_vendor_control_xfer_cb b t s rhport stage request).effects = []
    ∧ (tud_vendor_control_xfer_cb b t s rhport stage request).st = s := by
  by_cases hty : request.bmRequestType_type = TUSB_REQ_TYPE_CLASS
  · have hitf : request.wIndex ≠ ITF_NUM_VENDOR := by
      rcases h with h | h
      · exact absurd hty h
      · exact h
    simp [tud_vendor_control_xfer_cb, hty, hitf]
  · simp [tud_vendor_control_xfer_cb, hty]

/-- C14 at concrete inputs: an Init of vendor type (2) to interface 0, and a
class-type bootloader request to interface 1, both at the setup stage. -/
theorem control_wrong_type_or_interface_witness :
    (tud_vendor_control_xfer_cb ⟨[], [], [], true⟩ ⟨0, fun _ => 0, fun _ => true⟩ Statics.init 0
        CONTROL_STAGE_SETUP ⟨1, 2, 1, 0, 0, 8⟩).ret = some false
    ∧ (tud_vendor_control_xfer_cb ⟨[], [], [], true⟩ ⟨0, fun _ => 0, fun _ => true⟩ Statics.init 0
        CONTROL_STAGE_SETUP ⟨0, 1, 4, 0, 1, 0⟩).effects = [] :=
  ⟨(control_wrong_type_or_interface ⟨[], [], [], true⟩ ⟨0, fun _ => 0, fun _ => true⟩
      Statics.init 0 CONTROL_STAGE_SETUP ⟨1, 2, 1, 0, 0, 8⟩ (Or.inl (by decide))).1,
   (control_wrong_type_or_interface ⟨[], [], [], true⟩ ⟨0, fun _ => 0, fun _ => true⟩
      Statics.init 0 CONTROL_STAGE_SETUP ⟨0, 1, 4, 0, 1, 0⟩ (Or.inr (by decide))).2.1⟩

/-- C15: for each of the eight recognised request ids at the setup stage of a
class-type request to the vendor interface, when the direction is not the
required one (not In for Echo, Init, GitRevision, ToolchainVersion,
PlatformSdkVersion; In for Reset, Shutdown, EnterProgrammingMode), in every
build: the dispatcher returns false, makes no transport call at all (no
control response, no reboot), and `current_command`, `expected_data_len` and
`handled_data_len` stay as they were (an Init does not reset them). -/
theorem control_wrong_direction (b : Build) (t : Transport) (s : Statics) (rhport : Nat)
    (request : ControlRequest)
    (hty : request.bmRequestType_type = TUSB_REQ_TYPE_CLASS)
    (hitf : request.wIndex = ITF_NUM_VENDOR)
    (h : (request.bRequest ∈ [CTRL_ECHO, CTRL_INIT, CTRL_GITREV, CTRL_GCCVER, CTRL_SDKVER]
            ∧ request.bmRequestType_direction ≠ TUSB_DIR_IN)
          ∨ (request.bRequest ∈ [CTRL_RESET, CTRL_SHUTDOWN, CTRL_ENTER_BOOTLOADER]
            ∧ request.bmRequestType_direction = TUSB_DIR_IN)) :
    (tud_vendor_control_xfer_cb b t s rhport CONTROL_STAGE_SETUP request).ret = some false
    ∧ (tud_vendor_control_xfer_cb b t s rhport CONTROL_STAGE_SETUP request).effects = []
    ∧ (tud_vendor_control_xfer_cb b t s rhport CONTROL_STAGE_SETUP request).st.current_command
        = s.current_command
    ∧ (tud_vendor_control_xfer_cb b t s rhport CONTROL_STAGE_SETUP request).st.expected_data_len
        = s.expected_data_len
    ∧ (tud_vendor_control_xfer_cb b t s rhport CONTROL_STAGE_SETUP request).st.handled_data_len
        = s.handled_data_len := by
  rcases h with ⟨hid, hdir⟩ | ⟨hid, hdir⟩
  · simp only [List.mem_cons, List.mem_singleton, List.not_mem_nil, or_false] at hid
    rcases hid with hid | hid | hid | hid | hid <;>
      simp [tud_vendor_control_xfer_cb, hty, hitf, hid, hdir, CTRL_ECHO, CTRL_INIT, CTRL_RESET,
        CTRL_SHUTDOWN, CTRL_ENTER_BOOTLOADER, CTRL_GITREV, CTRL_GCCVER, CTRL_SDKVER]
  · simp only [List.mem_cons, List.mem_singleton, List.not_mem_nil, or_false] at hid
    rcases hid with hid | hid | hid <;>
      simp [tud_vendor_control_xfer_cb, hty, hitf, hid, hdir, CTRL_ECHO, CTRL_INIT, CTRL_RESET,
        CTRL_SHUTDOWN, CTRL_ENTER_BOOTLOADER, CTRL_GITREV, CTRL_GCCVER, CTRL_SDKVER]

/-- C15 at concrete inputs: an Init with direction Out in the middle of a
Read, which does not reset, and a bootloader request with direction In in a
build that can reboot, which does not reboot. -/
theorem control_wrong_direction_witness :
    (tud_vendor_control_xfer_cb ⟨[], [], [], true⟩ ⟨0, fun _ => 0, fun _ => true⟩
        { Statics.init with current_command := CMD_READ, expected_data_len := 100,
                            handled_data_len := 64 }
        0 CONTROL_STAGE_SETUP ⟨0, 1, 1, 0, 0, 8⟩).st.current_command = CMD_READ
    ∧ (tud_vendor_control_xfer_cb ⟨[], [], [], true⟩ ⟨0, fun _ => 0, fun _ => true⟩ Statics.init 0
        CONTROL_STAGE_SETUP ⟨1, 1, 4, 0, 0, 0⟩).effects = [] :=
  ⟨(control_wrong_direction ⟨[], [], [], true⟩ ⟨0, fun _ => 0, fun _ => true⟩
      { Statics.init with current_command := CMD_READ, expected_data_len := 100,
                          handled_data_len := 64 }
      0 ⟨0, 1, 1, 0, 0, 8⟩ rfl rfl (Or.inl ⟨by decide, by decide⟩)).2.2.1,
   (control_wrong_direction ⟨[], [], [], true⟩ ⟨0, fun _ => 0, fun _ => true⟩ Statics.init 0
      ⟨1, 1, 4, 0, 0, 0⟩ rfl rfl (Or.inr ⟨by decide, by decide⟩)).2.1⟩

/-- C16: a class-type request to the vendor interface at the setup stage
whose request id is none of `0x00, 0x01, 0x02, 0x03, 0x04, 0x06, 0x07, 0x08`
is refused in either direction: the dispatcher returns false, makes no
transport call, and `current_command`, `expected_data_len` and
`handled_data_len` stay as they were. -/
theorem control_unknown_request (b : Build) (t : Transport) (s : Statics) (rhport : Nat)
    (request : ControlRequest)
    (hty : request.bmRequestType_type = TUSB_REQ_TYPE_CLASS)
    (hitf : request.wIndex = ITF_NUM_VENDOR)
    (hid : request.bRequest ∉ [0x00, 0x01, 0x02, 0x03, 0x04, 0x06, 0x07, 0x08]) :
    (tud_vendor_control_xfer_cb b t s rhport CONTROL_STAGE_SETUP request).ret = some false
    ∧ (tud_vendor_control_xfer_cb b t s rhport CONTROL_STAGE_SETUP request).effects = []
    ∧ (tud_vendor_control_xfer_cb b t s rhport CONTROL_STAGE_SETUP request).st.current_command
        = s.current_command
    ∧ (tud_vendor_control_xfer_cb b t s rhport CONTROL_STAGE_SETUP request).st.expected_data_len
        = s.expected_data_len
    ∧ (tud_vendor_control_xfer_cb b t s rhport CONTROL_STAGE_SETUP request).st.handled_data_len
        = s.handled_data_len := by
  simp only [List.mem_cons, List.mem_singleton, List.not_mem_nil, or_false, not_or] at hid
  obtain ⟨h0, h1, h2, h3, h4, h6, h7, h8⟩ := hid
  simp [tud_vendor_control_xfer_cb, hty, hitf, h0, h1, h2, h3, h4, h6, h7, h8, CTRL_ECHO,
    CTRL_INIT, CTRL_RESET, CTRL_SHUTDOWN, CTRL_ENTER_BOOTLOADER, CTRL_GITREV, CTRL_GCCVER,
    CTRL_SDKVER]

/-- C16 at concrete inputs: request id `0x05` with direction In and request
id `0x09` with direction Out. -/
theorem control_unknown_request_witness :
    (tud_vendor_control_xfer_cb ⟨[], [], [], true⟩ ⟨0, fun _ => 0, fun _ => true⟩ Statics.init 0
        CONTROL_STAGE_SETUP ⟨1, 1, 5, 0, 0, 8⟩).ret = some false
    ∧ (tud_vendor_control_xfer_cb ⟨[], [], [], true⟩ ⟨0, fun _ => 0, fun _ => true⟩ Statics.init 0
        CONTROL_STAGE_SETUP ⟨0, 1, 9, 0, 0, 0⟩).ret = some false :=
  ⟨(control_unknown_request ⟨[], [], [], true⟩ ⟨0, fun _ => 0, fun _ => true⟩ Statics.init 0
      ⟨1, 1, 5, 0, 0, 8⟩ rfl rfl (by decide)).1,
   (control_unknown_request ⟨[], [], [], true⟩ ⟨0, fun _ => 0, fun _ => true⟩ Statics.init 0
      ⟨0, 1, 9, 0, 0, 0⟩ rfl rfl (by decide)).1⟩

/-- C17: from every state, a class-type request to the vendor interface at
the setup stage with request id Reset or Shutdown and a direction other than
In hands `tud_control_xfer` a response of zero bytes (and returns what it
returns), and `current_command`, `expected_data_len` and `handled_data_len`
stay exactly as they were. -/
theorem control_reset_shutdown (b : Build) (t : Transport) (s : Statics) (rhport : Nat)
    (request : ControlRequest)
    (hty : request.bmRequestType_type = TUSB_REQ_TYPE_CLASS)
    (hitf : request.wIndex = ITF_NUM_VENDOR)
    (hreq : request.bRequest = CTRL_RESET ∨ request.bRequest = CTRL_SHUTDOWN)
    (hdir : request.bmRequestType_direction ≠ TUSB_DIR_IN) :
    (tud_vendor_control_xfer_cb b t s rhport CONTROL_STAGE_SETUP request).effects
        = [Effect.control_xfer []]
    ∧ (tud_vendor_control_xfer_cb b t s rhport CONTROL_STAGE_SETUP request).ret
        = some (t.control_xfer [])
    ∧ (tud_vendor_control_xfer_cb b t s rhport CONTROL_STAGE_SETUP request).st.current_command
        = s.current_command
    ∧ (tud_vendor_control_xfer_cb b t s rhport CONTROL_STAGE_SETUP request).st.expected_data_len
        = s.expected_data_len
    ∧ (tud_vendor_control_xfer_cb b t s rhport CONTROL_STAGE_SETUP request).st.handled_data_len
        = s.handled_data_len := by
  rcases hreq with hreq | hreq <;>
    simp [tud_vendor_control_xfer_cb, ctrl_send, hty, hitf, hreq, hdir, CTRL_ECHO, CTRL_INIT,
      CTRL_RESET, CTRL_SHUTDOWN]

/-- C17 at a concrete input: a Reset with direction Out in the middle of a
Write of 20 bytes of which 10 are received. -/
theorem control_reset_shutdown_witness :
    (tud_vendor_control_xfer_cb ⟨[], [], [], true⟩ ⟨0, fun _ => 0, fun _ => true⟩
        { Statics.init with current_command := CMD_WRITE, expected_data_len := 20,
                            handled_data_len := 10 }
        0 CONTROL_STAGE_SETUP ⟨0, 1, 2, 0, 0, 0⟩).st.handled_data_len = 10 :=
  (control_reset_shutdown ⟨[], [], [], true⟩ ⟨0, fun _ => 0, fun _ => true⟩
    { Statics.init with current_command := CMD_WRITE, expected_data_len := 20,
                        handled_data_len := 10 }
    0 ⟨0, 1, 2, 0, 0, 0⟩ rfl rfl (Or.inl rfl) (by decide)).2.2.2.2

/-- C20: a class-type request to the vendor interface delivered at a stage
other than setup, whatever its request id and direction, is acknowledged:
the dispatcher returns true, makes no transport call (no control response, no
reboot) and leaves all the statics as they were (an Init does not reset). -/
theorem control_later_stage (b : Build) (t : Transport) (s : Statics) (rhport stage : Nat)
    (request : ControlRequest)
    (hty : request.bmRequestType_type = TUSB_REQ_TYPE_CLASS)
    (hitf : request.wIndex = ITF_NUM_VENDOR) (hstage : stage ≠ CONTROL_STAGE_SETUP) :
    (tud_vendor_control_xfer_cb b t s rhport stage request).ret = some true
    ∧ (tud_vendor_control_xfer_cb b t s rhport stage request).effects = []
    ∧ (tud_vendor_control_xfer_cb b t s rhport stage request).st = s := by
  simp [tud_vendor_control_xfer_cb, hty, hitf, hstage]

/-- C20 at concrete inputs: an Init with direction In at the data stage (2)
in the middle of a Read, and a bootloader request with direction Out at the
ack stage (3). -/
theorem control_later_stage_witness :
    (tud_vendor_control_xfer_cb ⟨[], [], [], true⟩ ⟨0, fun _ => 0, fun _ => true⟩
        { Statics.init with current_command := CMD_READ, expected_data_len := 100,
                            handled_data_len := 64 }
        0 2 ⟨1, 1, 1, 0, 0, 8⟩).st =
      { Statics.init with current_command := CMD_READ, expected_data_len := 100,
                          handled_data_len := 64 }
    ∧ (tud_vendor_control_xfer_cb ⟨[], [], [], true⟩ ⟨0, fun _ => 0, fun _ => true⟩ Statics.init 0
        3 ⟨0, 1, 4, 0, 0, 0⟩).effects = [] :=
  ⟨(control_later_stage ⟨[], [], [], true⟩ ⟨0, fun _ => 0, fun _ => true⟩
      { Statics.init with current_command := CMD_READ, expected_data_len := 100,
                          handled_data_len := 64 }
      0 2 ⟨1, 1, 1, 0, 0, 8⟩ rfl rfl (by decide)).2.2,
   (control_later_stage ⟨[], [], [], true⟩ ⟨0, fun _ => 0, fun _ => true⟩ Statics.init 0
      3 ⟨0, 1, 4, 0, 0, 0⟩ rfl rfl (by decide)).2.1⟩

/-! ## Version strings -/

theorem takeWhile_no_terminator (l : List Nat) (h : ∀ c ∈ l, c ≠ 0) :
    l.takeWhile (fun c => decide (c ≠ 0)) = l := by
  induction l with
  | nil => rfl
  | cons x xs ih =>
    have hx : x ≠ 0 := h x (by simp)
    have hxs := ih (fun c hc => h c (List.mem_cons_of_mem _ hc))
    rw [List.takeWhile_cons, hxs]
    simp [hx]

theorem take_strncpy (dest src : List Nat) (h : ∀ c ∈ src, c ≠ 0) :
    (strncpy dest src 8).take 8 = src.take 8 ++ List.replicate (8 - src.length) 0 := by
  unfold strncpy
  rw [takeWhile_no_terminator src h]
  apply List.take_left'
  simp only [List.length_append, List.length_take, List.length_replicate]
  omega

/-- C19: for each of GitRevision (0x06), ToolchainVersion (0x07) and
PlatformSdkVersion (0x08) with direction In at the setup stage of a
class-type request to the vendor interface, and for every build-time string
`str` of that request (its characters, none of them the terminator): the
dispatcher hands `tud_control_xfer` exactly 8 bytes, the first
`min 8 str.length` characters of `str` followed by zero bytes, and
`current_command`, `expected_data_len` and `handled_data_len` stay as they
were. -/
theorem control_version_string (b : Build) (t : Transport) (s : Statics) (rhport : Nat)
    (request : ControlRequest) (str : List Nat)
    (hty : request.bmRequestType_type = TUSB_REQ_TYPE_CLASS)
    (hitf : request.wIndex = ITF_NUM_VENDOR)
    (hdir : request.bmRequestType_direction = TUSB_DIR_IN)
    (hreq : (request.bRequest = CTRL_GITREV ∧ str = b.git_revision)
          ∨ (request.bRequest = CTRL_GCCVER ∧ str = b.gcc_version)
          ∨ (request.bRequest = CTRL_SDKVER ∧ str = b.sdk_version))
    (hstr : ∀ c ∈ str, c ≠ 0) :
    (tud_vendor_control_xfer_cb b t s rhport CONTROL_STAGE_SETUP request).effects
        = [Effect.control_xfer (str.take 8 ++ List.replicate (8 - str.length) 0)]
    ∧ (str.take 8 ++ List.replicate (8 - str.length) 0).length = 8
    ∧ (str.take 8 ++ List.replicate (8 - str.length) 0).take (min 8 str.length)
        = str.take (min 8 str.length)
    ∧ (tud_vendor_control_xfer_cb b t s rhport CONTROL_STAGE_SETUP request).ret
        = some (t.control_xfer (str.take 8 ++ List.replicate (8 - str.length) 0))
    ∧ (tud_vendor_control_xfer_cb b t s rhport CONTROL_STAGE_SETUP request).st.current_command
        = s.current_command
    ∧ (tud_vendor_control_xfer_cb b t s rhport CONTROL_STAGE_SETUP request).st.expected_data_len
        = s.expected_data_len
    ∧ (tud_vendor_control_xfer_cb b t s rhport CONTROL_STAGE_SETUP request).st.handled_data_len
        = s.handled_data_len := by
  have hlen : (str.take 8 ++ List.replicate (8 - str.length) 0).length = 8 := by
    simp only [List.length_append, List.length_take, List.length_replicate]
    omega
  have hpre : (str.take 8 ++ List.replicate (8 - str.length) 0).take (min 8 str.length)
      = str.take (min 8 str.length) := by
    have h1 : (str.take 8).length = min 8 str.length := by simp
    rw [List.take_left' h1]
    by_cases hl : 8 ≤ str.length
    · rw [Nat.min_eq_left hl]
    · have hl2 : str.length ≤ 8 := by omega
      rw [Nat.min_eq_right hl2, List.take_of_length_le hl2, List.take_of_length_le (le_refl _)]
  refine ⟨?_, hlen, hpre, ?_⟩
  · rcases hreq with ⟨hid, rfl⟩ | ⟨hid, rfl⟩ | ⟨hid, rfl⟩ <;>
      simp [tud_vendor_control_xfer_cb, ctrl_send, hty, hitf, hid, hdir, CTRL_ECHO, CTRL_INIT,
        CTRL_RESET, CTRL_SHUTDOWN, CTRL_ENTER_BOOTLOADER, CTRL_GITREV, CTRL_GCCVER,
        CTRL_SDKVER, take_strncpy _ _ hstr]
  · rcases hreq with ⟨hid, rfl⟩ | ⟨hid, rfl⟩ | ⟨hid, rfl⟩ <;>
      simp [tud_vendor_control_xfer_cb, ctrl_send, hty, hitf, hid, hdir, CTRL_ECHO, CTRL_INIT,
        CTRL_RESET, CTRL_SHUTDOWN, CTRL_ENTER_BOOTLOADER, CTRL_GITREV, CTRL_GCCVER,
        CTRL_SDKVER, take_strncpy _ _ hstr]

/-- C19 at concrete inputs: a revision string of 2 characters, padded with
six zero bytes, and a version string of 10 characters, cut to 8. -/
theorem control_version_string_witness :
    (tud_vendor_control_xfer_cb
        ⟨[0x61, 0x62], [0x31], [0x32, 0x2e, 0x30, 0x2e, 0x30, 0x2e, 0x30, 0x2e, 0x30, 0x2e], true⟩
        ⟨0, fun _ => 0, fun _ => true⟩ Statics.init 0 CONTROL_STAGE_SETUP
        ⟨1, 1, 6, 0, 0, 8⟩).effects
      = [Effect.control_xfer
          ([0x61, 0x62].take 8 ++ List.replicate (8 - [0x61, 0x62].length) 0)]
    ∧ (tud_vendor_control_xfer_cb
        ⟨[0x61, 0x62], [0x31], [0x32, 0x2e, 0x30, 0x2e, 0x30, 0x2e, 0x30, 0x2e, 0x30, 0x2e], true⟩
        ⟨0, fun _ => 0, fun _ => true⟩ Statics.init 0 CONTROL_STAGE_SETUP
        ⟨1, 1, 8, 0, 0, 8⟩).effects
      = [Effect.control_xfer
          ([0x32, 0x2e, 0x30, 0x2e, 0x30, 0x2e, 0x30, 0x2e, 0x30, 0x2e].take 8 ++
            List.replicate
              (8 - [0x32, 0x2e, 0x30, 0x2e, 0x30, 0x2e, 0x30, 0x2e, 0x30, 0x2e].length) 0)] :=
  ⟨(control_version_string
      ⟨[0x61, 0x62], [0x31], [0x32, 0x2e, 0x30, 0x2e, 0x30, 0x2e, 0x30, 0x2e, 0x30, 0x2e], true⟩
      ⟨0, fun _ => 0, fun _ => true⟩ Statics.init 0 ⟨1, 1, 6, 0, 0, 8⟩ [0x61, 0x62]
      rfl rfl rfl (Or.inl ⟨rfl, rfl⟩) (by decide)).1,
   (control_version_string
      ⟨[0x61, 0x62], [0x31], [0x32, 0x2e, 0x30, 0x2e, 0x30, 0x2e, 0x30, 0x2e, 0x30, 0x2e], true⟩
      ⟨0, fun _ => 0, fun _ => true⟩ Statics.init 0 ⟨1, 1, 8, 0, 0, 8⟩
      [0x32, 0x2e, 0x30, 0x2e, 0x30, 0x2e, 0x30, 0x2e, 0x30, 0x2e]
      rfl rfl rfl (Or.inr (Or.inr ⟨rfl, rfl⟩)) (by decide)).1⟩

/-! ## The bootloader request -/

/-- C18: in the build the source documents (`PICO_ENTER_USB_BOOT_ON_EXIT`
defined, which the comment in `enter_bootloader` says `CMakeLists.txt` does),
a class-type request to the vendor interface at the setup stage with request
id EnterProgrammingMode (0x04) and a direction other than In stops core 1
and reboots (`reset_usb_boot`); the callback does not return, and no control
response is handed to `tud_control_xfer`, from every state of the statics
(whatever `ctrl_rsp` and `rsp_len` the requests dispatched before have
left). -/
theorem control_enter_bootloader (b : Build) (t : Transport) (s : Statics) (rhport : Nat)
    (request : ControlRequest)
    (hboot : b.enter_usb_boot_on_exit = true)
    (hty : request.bmRequestType_type = TUSB_REQ_TYPE_CLASS)
    (hitf : request.wIndex = ITF_NUM_VENDOR)
    (hreq : request.bRequest = CTRL_ENTER_BOOTLOADER)
    (hdir : request.bmRequestType_direction ≠ TUSB_DIR_IN) :
    (tud_vendor_control_xfer_cb b t s rhport CONTROL_STAGE_SETUP request).effects
        = [Effect.multicore_reset_core1, Effect.reset_usb_boot]
    ∧ (tud_vendor_control_xfer_cb b t s rhport CONTROL_STAGE_SETUP request).ret = none
    ∧ ∀ bytes, Effect.control_xfer bytes ∉
        (tud_vendor_control_xfer_cb b t s rhport CONTROL_STAGE_SETUP request).effects := by
  simp [tud_vendor_control_xfer_cb, enter_bootloader, hty, hitf, hreq, hdir, hboot, CTRL_ECHO,
    CTRL_INIT, CTRL_RESET, CTRL_SHUTDOWN, CTRL_ENTER_BOOTLOADER]

/-- C18 at a concrete input: the bootloader request after an Init, which
has left `rsp_len = 8`. -/
theorem control_enter_bootloader_witness :
    (tud_vendor_control_xfer_cb ⟨[], [], [], true⟩ ⟨0, fun _ => 0, fun _ => true⟩
        (tud_vendor_control_xfer_cb ⟨[], [], [], true⟩ ⟨0, fun _ => 0, fun _ => true⟩
          Statics.init 0 CONTROL_STAGE_SETUP ⟨1, 1, 1, 0, 0, 8⟩).st
        0 CONTROL_STAGE_SETUP ⟨0, 1, 4, 0, 0, 0⟩).effects
      = [Effect.multicore_reset_core1, Effect.reset_usb_boot]
    ∧ (tud_vendor_control_xfer_cb ⟨[], [], [], true⟩ ⟨0, fun _ => 0, fun _ => true⟩
        (tud_vendor_control_xfer_cb ⟨[], [], [], true⟩ ⟨0, fun _ => 0, fun _ => true⟩
          Statics.init 0 CONTROL_STAGE_SETUP ⟨1, 1, 1, 0, 0, 8⟩).st
        0 CONTROL_STAGE_SETUP ⟨0, 1, 4, 0, 0, 0⟩).ret = none :=
  ⟨(control_enter_bootloader ⟨[], [], [], true⟩ ⟨0, fun _ => 0, fun _ => true⟩
      (tud_vendor_control_xfer_cb ⟨[], [], [], true⟩ ⟨0, fun _ => 0, fun _ => true⟩
        Statics.init 0 CONTROL_STAGE_SETUP ⟨1, 1, 1, 0, 0, 8⟩).st
      0 ⟨0, 1, 4, 0, 0, 0⟩ rfl rfl rfl rfl (by decide)).1,
   (control_enter_bootloader ⟨[], [], [], true⟩ ⟨0, fun _ => 0, fun _ => true⟩
      (tud_vendor_control_xfer_cb ⟨[], [], [], true⟩ ⟨0, fun _ => 0, fun _ => true⟩
        Statics.init 0 CONTROL_STAGE_SETUP ⟨1, 1, 1, 0, 0, 8⟩).st
      0 ⟨0, 1, 4, 0, 0, 0⟩ rfl rfl rfl rfl (by decide)).2.1⟩

/-- A remark on the other branch of `enter_bootloader`: in a build without
`PICO_ENTER_USB_BOOT_ON_EXIT` the function only logs and returns, so that
after an Init the same request triggers no reboot and the dispatcher goes on
to `tud_control_xfer` with the zeroed buffer and the `rsp_len` the Init
left. -/
theorem control_bootloader_not_compiled_in :
    (tud_vendor_control_xfer_cb ⟨[], [], [], false⟩ ⟨0, fun _ => 0, fun _ => true⟩
        (tud_vendor_control_xfer_cb ⟨[], [], [], false⟩ ⟨0, fun _ => 0, fun _ => true⟩
          Statics.init 0 CONTROL_STAGE_SETUP ⟨1, 1, 1, 0, 0, 8⟩).st
        0 CONTROL_STAGE_SETUP ⟨0, 1, 4, 0, 0, 0⟩).effects
      = [Effect.control_xfer [0, 0, 0, 0, 0, 0, 0, 0]]
    ∧ (tud_vendor_control_xfer_cb ⟨[], [], [], false⟩ ⟨0, fun _ => 0, fun _ => true⟩
        (tud_vendor_control_xfer_cb ⟨[], [], [], false⟩ ⟨0, fun _ => 0, fun _ => true⟩
          Statics.init 0 CONTROL_STAGE_SETUP ⟨1, 1, 1, 0, 0, 8⟩).st
        0 CONTROL_STAGE_SETUP ⟨0, 1, 4, 0, 0, 0⟩).ret = some true
    ∧ Effect.reset_usb_boot ∉
      (tud_vendor_control_xfer_cb ⟨[], [], [], false⟩ ⟨0, fun _ => 0, fun _ => true⟩
        (tud_vendor_control_xfer_cb ⟨[], [], [], false⟩ ⟨0, fun _ => 0, fun _ => true⟩
          Statics.init 0 CONTROL_STAGE_SETUP ⟨1, 1, 1, 0, 0, 8⟩).st
        0 CONTROL_STAGE_SETUP ⟨0, 1, 4, 0, 0, 0⟩).effects := by
  refine ⟨by decide, by decide, by decide⟩

/-! ## The protocol-id byte -/

/-- C21: the protocol-id byte does not influence the receive handler: in
every state, on every interface and for every `bufsize`, two frames that
differ only in byte 1 give the same statics and the same transport calls
(hence the same `current_command`, `expected_data_len`, `handled_data_len`
and the same bytes written). -/
theorem protocol_id_is_ignored (s : Statics) (itf bufsize b0 p q b2 b3 : Nat) :
    tud_vendor_rx_cb s itf [b0, p, b2, b3] bufsize
      = tud_vendor_rx_cb s itf [b0, q, b2, b3] bufsize := by
  simp [tud_vendor_rx_cb]

/-! ## One poll step -/

/-- C23: with `current_command = CMD_NONE` or `current_command = CMD_WRITE`
the poll step returns the statics as they were and makes no transport call
(no space query, no write, no flush). -/
theorem poll_outside_read_does_nothing (t : Transport) (s : Statics)
    (hc : s.current_command = CMD_NONE ∨ s.current_command = CMD_WRITE) :
    maybe_send_data t s = (s, []) := by
  apply poll_not_read
  rcases hc with hc | hc <;> rw [hc] <;> decide

/-- C23 at a concrete input: a poll in the middle of a Write of 20 bytes of
which 10 are received. -/
theorem poll_outside_read_does_nothing_witness :
    maybe_send_data ⟨64, fun bytes => bytes.length, fun _ => true⟩
        { Statics.init with current_command := CMD_WRITE, expected_data_len := 20,
                            handled_data_len := 10 }
      = ({ Statics.init with current_command := CMD_WRITE, expected_data_len := 20,
                             handled_data_len := 10 }, []) :=
  poll_outside_read_does_nothing ⟨64, fun bytes => bytes.length, fun _ => true⟩
    { Statics.init with current_command := CMD_WRITE, expected_data_len := 20,
                        handled_data_len := 10 }
    (Or.inr rfl)

/-- One poll in a Read, with the number of bytes offered made explicit. -/
theorem poll_read_exact (t : Transport) (s : Statics) (hc : s.current_command = CMD_READ)
    (he : s.expected_data_len < 65536) (hlt : s.handled_data_len < s.expected_data_len)
    (ha : t.write_available < 2 ^ 32) (hw : ∀ bytes, t.write bytes ≤ bytes.length) :
    (maybe_send_data t s).2 =
        [Effect.vendor_write_available,
         Effect.vendor_write (List.replicate
           (min (min t.write_available (s.expected_data_len - s.handled_data_len)) 64) 0x78),
         Effect.vendor_write_flush]
    ∧ (s.handled_data_len + t.write (List.replicate
          (min (min t.write_available (s.expected_data_len - s.handled_data_len)) 64) 0x78)
        = s.expected_data_len →
        (maybe_send_data t s).1.current_command = CMD_NONE
        ∧ (maybe_send_data t s).1.expected_data_len = 0
        ∧ (maybe_send_data t s).1.handled_data_len = 0)
    ∧ (s.handled_data_len + t.write (List.replicate
          (min (min t.write_available (s.expected_data_len - s.handled_data_len)) 64) 0x78)
        < s.expected_data_len →
        (maybe_send_data t s).1.current_command = CMD_READ
        ∧ (maybe_send_data t s).1.expected_data_len = s.expected_data_len
        ∧ (maybe_send_data t s).1.handled_data_len = s.handled_data_len
            + t.write (List.replicate
                (min (min t.write_available (s.expected_data_len - s.handled_data_len)) 64)
                0x78)) := by
  have hwant : (s.expected_data_len + 65536 - s.handled_data_len) % 65536
      = s.expected_data_len - s.handled_data_len := by omega
  have hav : t.write_available % 2 ^ 32 = t.write_available := Nat.mod_eq_of_lt ha
  have hk : (if (if s.expected_data_len - s.handled_data_len > t.write_available
        then t.write_available % 65536
        else s.expected_data_len - s.handled_data_len) > 64 then 64
      else (if s.expected_data_len - s.handled_data_len > t.write_available
        then t.write_available % 65536
        else s.expected_data_len - s.handled_data_len))
      = min (min t.write_available (s.expected_data_len - s.handled_data_len)) 64 := by
    split_ifs <;> omega
  simp only [maybe_send_data, hc, if_true, take_memset, hwant, hav, hk]
  generalize min (min t.write_available (s.expected_data_len - s.handled_data_len)) 64 = k at *
  have hkw : k ≤ s.expected_data_len - s.handled_data_len := by rw [← hk]; split_ifs <;> omega
  have hk64 : k ≤ 64 := by rw [← hk]; split_ifs <;> omega
  have hsent : t.write (List.replicate k 0x78) ≤ k := by simpa using hw (List.replicate k 0x78)
  have hm32 : t.write (List.replicate k 0x78) % 2 ^ 32 = t.write (List.replicate k 0x78) :=
    Nat.mod_eq_of_lt (by omega)
  have hm : (s.handled_data_len + t.write (List.replicate k 0x78)) % 65536
      = s.handled_data_len + t.write (List.replicate k 0x78) := Nat.mod_eq_of_lt (by omega)
  rw [hm32, hm]
  refine ⟨by split_ifs <;> rfl, ?_, ?_⟩
  · intro hdone
    rw [if_pos (by omega)]
    exact ⟨rfl, rfl, rfl⟩
  · intro hmore
    rw [if_neg (by omega)]
    exact ⟨rfl, rfl, rfl⟩

/-- C22: one poll in a Read with `handled_data_len < expected_data_len`
against a transport that reports `a` bytes of space and accepts at most what
it is offered, with `can_send = min (a, expected_data_len -
handled_data_len, 64)`: the poll queries the space, offers exactly `can_send`
bytes, each `0x78`, and flushes, and makes no other call (so no status frame);
with `acc` the number of bytes the transport accepted, `acc ≤ can_send`, and
the engine is at `{CMD_NONE, 0, 0}` when `handled_data_len + acc` has reached
`expected_data_len`, and otherwise still in Read with `expected_data_len`
unchanged and `handled_data_len` increased by exactly `acc`. This holds for
`can_send = 0` too, where the write offers no byte. -/
theorem poll_step_in_read (t : Transport) (s : Statics) (hc : s.current_command = CMD_READ)
    (he : s.expected_data_len < 65536) (hlt : s.handled_data_len < s.expected_data_len)
    (ha : t.write_available < 2 ^ 32) (hw : ∀ bytes, t.write bytes ≤ bytes.length) :
    (maybe_send_data t s).2 =
        [Effect.vendor_write_available,
         Effect.vendor_write (List.replicate
           (min (min t.write_available (s.expected_data_len - s.handled_data_len)) 64) 0x78),
         Effect.vendor_write_flush]
    ∧ t.write (List.replicate
          (min (min t.write_available (s.expected_data_len - s.handled_data_len)) 64) 0x78)
        ≤ min (min t.write_available (s.expected_data_len - s.handled_data_len)) 64
    ∧ (s.handled_data_len + t.write (List.replicate
          (min (min t.write_available (s.expected_data_len - s.handled_data_len)) 64) 0x78)
        = s.expected_data_len →
        (maybe_send_data t s).1.current_command = CMD_NONE
        ∧ (maybe_send_data t s).1.expected_data_len = 0
        ∧ (maybe_send_data t s).1.handled_data_len = 0)
    ∧ (s.handled_data_len + t.write (List.replicate
          (min (min t.write_available (s.expected_data_len - s.handled_data_len)) 64) 0x78)
        ≠ s.expected_data_len →
        (maybe_send_data t s).1.current_command = CMD_READ
        ∧ (maybe_send_data t s).1.expected_data_len = s.expected_data_len
        ∧ (maybe_send_data t s).1.handled_data_len = s.handled_data_len
            + t.write (List.replicate
                (min (min t.write_available (s.expected_data_len - s.handled_data_len)) 64)
                0x78)) := by
  obtain ⟨htrace, hdone, hmore⟩ := poll_read_exact t s hc he hlt ha hw
  have hsent : t.write (List.replicate
        (min (min t.write_available (s.expected_data_len - s.handled_data_len)) 64) 0x78)
      ≤ min (min t.write_available (s.expected_data_len - s.handled_data_len)) 64 := by
    simpa using hw (List.replicate
      (min (min t.write_available (s.expected_data_len - s.handled_data_len)) 64) 0x78)
  refine ⟨htrace, hsent, hdone, ?_⟩
  intro hne
  apply hmore
  have hle : min (min t.write_available (s.expected_data_len - s.handled_data_len)) 64
      ≤ s.expected_data_len - s.handled_data_len :=
    le_trans (Nat.min_le_left _ _) (Nat.min_le_right _ _)
  omega

/-- C22 at a concrete input: a Read of 100 bytes of which 64 are sent, polled
against a transport with 20 bytes of space that accepts half of what it is
offered: 20 bytes are offered and the engine stays in Read. -/
theorem poll_step_in_read_witness :
    (maybe_send_data ⟨20, fun bytes => bytes.length / 2, fun _ => true⟩
        { Statics.init with current_command := CMD_READ, expected_data_len := 100,
                            handled_data_len := 64 }).2 =
      [Effect.vendor_write_available,
       Effect.vendor_write (List.replicate (min (min 20 (100 - 64)) 64) 0x78),
       Effect.vendor_write_flush] :=
  (poll_step_in_read ⟨20, fun bytes => bytes.length / 2, fun _ => true⟩
    { Statics.init with current_command := CMD_READ, expected_data_len := 100,
                        handled_data_len := 64 }
    rfl (by decide) (by decide) (by decide) (fun bytes => Nat.div_le_self _ _)).1

/-! ## Write overrun -/

theorem rx_write_over (s : Statics) (buffer : List Nat) (bufsize : Nat)
    (hc : s.current_command = CMD_WRITE)
    (hover : s.handled_data_len + bufsize > s.expected_data_len)
    (hfit : s.handled_data_len + bufsize < 65536) :
    tud_vendor_rx_cb s ITF_NUM_VENDOR buffer bufsize =
      ({ s with handled_data_len := s.handled_data_len + bufsize },
       [Effect.vendor_read_flush]) := by
  have hm : (s.handled_data_len + bufsize) % 65536 = s.handled_data_len + bufsize :=
    Nat.mod_eq_of_lt hfit
  have hne : ¬ s.expected_data_len = s.handled_data_len + bufsize := by omega
  simp [tud_vendor_rx_cb, rx_tail, hc, CMD_WRITE, CMD_NONE, CFG_TUD_VENDOR_RX_BUFSIZE, hm, hne]

theorem rx_write_done_mod (s : Statics) (buffer : List Nat) (bufsize : Nat)
    (hc : s.current_command = CMD_WRITE) (he : s.expected_data_len < 65536)
    (h : (s.handled_data_len + bufsize) % 65536 = s.expected_data_len) :
    tud_vendor_rx_cb s ITF_NUM_VENDOR buffer bufsize =
      ({ s with handled_data_len := 0, expected_data_len := 0, current_command := CMD_NONE,
                status := [STATUS_READY, s.expected_data_len % 256, s.expected_data_len / 256] },
       [Effect.vendor_write [STATUS_READY, s.expected_data_len % 256, s.expected_data_len / 256],
        Effect.vendor_write_flush, Effect.vendor_read_flush]) := by
  simp [tud_vendor_rx_cb, rx_tail, send_status_response, reset_data, hc, CMD_WRITE, CMD_NONE,
    CFG_TUD_VENDOR_RX_BUFSIZE, STATUS_LEN, h, status_lo, status_hi _ he]

/-- C24: with `current_command = CMD_WRITE`, a chunk of size `S` with
`handled_data_len + S > expected_data_len` and `handled_data_len + S < 65536`
makes the handler write nothing (its only transport call is the flush of the
receive buffer), keeps `current_command = CMD_WRITE` and `expected_data_len`,
and sets `handled_data_len` to `handled_data_len + S`, above
`expected_data_len`. -/
theorem write_overrun_is_not_guarded (s : Statics) (buffer : List Nat) (S : Nat)
    (hc : s.current_command = CMD_WRITE)
    (hover : s.handled_data_len + S > s.expected_data_len)
    (hfit : s.handled_data_len + S < 65536) :
    (tud_vendor_rx_cb s ITF_NUM_VENDOR buffer S).2 = [Effect.vendor_read_flush]
    ∧ vendor_writes (tud_vendor_rx_cb s ITF_NUM_VENDOR buffer S).2 = []
    ∧ (tud_vendor_rx_cb s ITF_NUM_VENDOR buffer S).1.current_command = CMD_WRITE
    ∧ (tud_vendor_rx_cb s ITF_NUM_VENDOR buffer S).1.expected_data_len = s.expected_data_len
    ∧ (tud_vendor_rx_cb s ITF_NUM_VENDOR buffer S).1.handled_data_len = s.handled_data_len + S
    ∧ (tud_vendor_rx_cb s ITF_NUM_VENDOR buffer S).1.handled_data_len
        > (tud_vendor_rx_cb s ITF_NUM_VENDOR buffer S).1.expected_data_len := by
  have h := rx_write_over s buffer S hc hover hfit
  rw [h]
  exact ⟨rfl, rfl, hc, rfl, rfl, hover⟩

/-- C24 at a concrete input: a Write of 10 bytes with nothing received yet
and a chunk of 20 bytes. -/
theorem write_overrun_is_not_guarded_witness :
    (tud_vendor_rx_cb
        { Statics.init with current_command := CMD_WRITE, expected_data_len := 10 }
        ITF_NUM_VENDOR (List.replicate 20 0) 20).1.handled_data_len = 0 + 20 :=
  (write_overrun_is_not_guarded
    { Statics.init with current_command := CMD_WRITE, expected_data_len := 10 }
    (List.replicate 20 0) 20 rfl (by decide) (by decide)).2.2.2.2.1

/-- C25: Write completion is decided modulo `2 ^ 16`. From the initial
statics, the frame `[9, p, 10, 0]` (a Write of 10 bytes) followed by a chunk
of 20 bytes and a chunk of 65526 bytes (`c1` and `c2`, whatever their
bytes), 65546 bytes in all: after the first
chunk `handled_data_len = 20` and nothing is written; the second chunk wraps
`handled_data_len` to 10, and the handler writes the frame `[2, 10, 0]` and
returns to `{CMD_NONE, 0, 0}`. -/
theorem write_completion_wraps (b : Build) (p : Nat) (c1 c2 : List Nat) :
    10 < 20 + 65526
    ∧ (run b Statics.init
        [Event.rx ITF_NUM_VENDOR [9, p, 10, 0] 4,
         Event.rx ITF_NUM_VENDOR c1 20]).1.handled_data_len = 20
    ∧ vendor_writes (run b Statics.init
        [Event.rx ITF_NUM_VENDOR [9, p, 10, 0] 4,
         Event.rx ITF_NUM_VENDOR c1 20]).2 = []
    ∧ vendor_writes (run b Statics.init
        [Event.rx ITF_NUM_VENDOR [9, p, 10, 0] 4,
         Event.rx ITF_NUM_VENDOR c1 20,
         Event.rx ITF_NUM_VENDOR c2 65526]).2 = [[2, 10, 0]]
    ∧ (run b Statics.init
        [Event.rx ITF_NUM_VENDOR [9, p, 10, 0] 4,
         Event.rx ITF_NUM_VENDOR c1 20,
         Event.rx ITF_NUM_VENDOR c2 65526]).1.current_command = CMD_NONE
    ∧ (run b Statics.init
        [Event.rx ITF_NUM_VENDOR [9, p, 10, 0] 4,
         Event.rx ITF_NUM_VENDOR c1 20,
         Event.rx ITF_NUM_VENDOR c2 65526]).1.expected_data_len = 0
    ∧ (run b Statics.init
        [Event.rx ITF_NUM_VENDOR [9, p, 10, 0] 4,
         Event.rx ITF_NUM_VENDOR c1 20,
         Event.rx ITF_NUM_VENDOR c2 65526]).1.handled_data_len = 0 := by
  have h0 : tud_vendor_rx_cb Statics.init ITF_NUM_VENDOR [9, p, 10, 0] 4 =
      ({ Statics.init with expected_data_len := 10, handled_data_len := 0,
                           current_command := CMD_WRITE }, [Effect.vendor_read_flush]) :=
    rx_cmd_write Statics.init p 10 0 rfl (by decide) (by decide) (by decide)
  have h1 := rx_write_over
    { Statics.init with expected_data_len := 10, handled_data_len := 0,
                        current_command := CMD_WRITE } c1 20 rfl (by decide) (by decide)
  have h2 := rx_write_done_mod
    { Statics.init with expected_data_len := 10, handled_data_len := 0 + 20,
                        current_command := CMD_WRITE } c2 65526 rfl (by decide) (by decide)
  refine ⟨by decide, ?_, ?_, ?_, ?_, ?_, ?_⟩
  · simp only [run, step, h0, h1]
  · simp only [run, step, h0, h1]
    rfl
  · simp only [run, step, h0, h1, h2]
    rfl
  · simp only [run, step, h0, h1, h2]
  · simp only [run, step, h0, h1, h2]
  · simp only [run, step, h0, h1, h2]

/-! ## The flush of the receive buffer -/

/-- C29 fails on the code: in the initial state a chunk of 3 bytes on the
vendor interface is answered with the Error frame, and the handler returns
without flushing the receive buffer (no `vendor_read_flush` in its trace);
the same 3 bytes on another interface, or a 4-byte frame with an unknown
opcode, end with exactly one flush. -/
theorem bad_length_skips_read_flush :
    (tud_vendor_rx_cb Statics.init ITF_NUM_VENDOR [9, 16, 1] 3).2
        = [Effect.vendor_write [3, 0, 0], Effect.vendor_write_flush]
    ∧ ((tud_vendor_rx_cb Statics.init ITF_NUM_VENDOR [9, 16, 1] 3).2).count
        Effect.vendor_read_flush = 0
    ∧ ((tud_vendor_rx_cb Statics.init 1 [9, 16, 1] 3).2).count Effect.vendor_read_flush = 1
    ∧ ((tud_vendor_rx_cb Statics.init ITF_NUM_VENDOR [7, 16, 1, 0] 4).2).count
        Effect.vendor_read_flush = 1 := by
  refine ⟨by decide, by decide, by decide, by decide⟩

/-! ## What holds between events -/

theorem engine_inv_init : engine_inv Statics.init :=
  Or.inl ⟨rfl, rfl, rfl⟩

theorem engine_inv_of_fields (s s' : Statics) (hc : s'.current_command = s.current_command)
    (he : s'.expected_data_len = s.expected_data_len)
    (hh : s'.handled_data_len = s.handled_data_len) (h : engine_inv s) : engine_inv s' := by
  unfold engine_inv at *
  rw [hc, he, hh]
  exact h

theorem engine_inv_of_reset (s : Statics) (hc : s.current_command = CMD_NONE)
    (he : s.expected_data_len = 0) (hh : s.handled_data_len = 0) : engine_inv s :=
  Or.inl ⟨hc, he, hh⟩

theorem rx_inv (s : Statics) (itf : Nat) (buffer : List Nat) (bufsize : Nat)
    (h : engine_inv s) : engine_inv (tud_vendor_rx_cb s itf buffer bufsize).1 := by
  unfold tud_vendor_rx_cb rx_tail
  have hb : (buffer.getD 2 0 ||| (buffer.getD 3 0 <<< 8)) % 65536 < 65536 :=
    Nat.mod_lt _ (by decide)
  generalize (buffer.getD 2 0 ||| (buffer.getD 3 0 <<< 8)) % 65536 = n at hb ⊢
  generalize buffer.getD 0 0 = b0
  generalize (s.handled_data_len + bufsize) % 65536 = m
  unfold engine_inv at h ⊢
  dsimp only [send_status_response, reset_data]
  split_ifs <;>
    simp only [CMD_NONE, CMD_READ, CMD_WRITE, CFG_TUD_VENDOR_RX_BUFSIZE, and_true, true_and,
      true_or, or_true] at * <;>
    omega

theorem poll_inv (t : Transport) (s : Statics) (h : engine_inv s) :
    engine_inv (maybe_send_data t s).1 := by
  by_cases hc : s.current_command = CMD_READ
  swap
  · rw [poll_not_read t s hc]
    exact h
  unfold maybe_send_data
  rw [if_pos hc]
  dsimp only
  generalize (s.handled_data_len + t.write _ % 2 ^ 32) % 65536 = m
  unfold engine_inv at h ⊢
  split_ifs <;>
    simp only [reset_data, CMD_NONE, CMD_READ, CMD_WRITE, and_true, true_and, true_or,
      or_true] at * <;>
    omega

theorem init_protocol_handling_inv (s : Statics) : engine_inv (init_protocol_handling s) :=
  Or.inl ⟨rfl, rfl, rfl⟩

/-- A control request leaves the three protocol variables as they were, or
resets them. -/
theorem control_fields (b : Build) (t : Transport) (s : Statics) (rhport stage : Nat)
    (request : ControlRequest) :
    ((tud_vendor_control_xfer_cb b t s rhport stage request).st.current_command
        = s.current_command
      ∧ (tud_vendor_control_xfer_cb b t s rhport stage request).st.expected_data_len
        = s.expected_data_len
      ∧ (tud_vendor_control_xfer_cb b t s rhport stage request).st.handled_data_len
        = s.handled_data_len)
    ∨ ((tud_vendor_control_xfer_cb b t s rhport stage request).st.current_command = CMD_NONE
      ∧ (tud_vendor_control_xfer_cb b t s rhport stage request).st.expected_data_len = 0
      ∧ (tud_vendor_control_xfer_cb b t s rhport stage request).st.handled_data_len = 0) := by
  by_cases hty : request.bmRequestType_type = TUSB_REQ_TYPE_CLASS
  swap
  · left
    simp [tud_vendor_control_xfer_cb, hty]
  by_cases hitf : request.wIndex = ITF_NUM_VENDOR
  swap
  · left
    simp [tud_vendor_control_xfer_cb, hty, hitf]
  by_cases hst : stage = CONTROL_STAGE_SETUP
  swap
  · left
    simp [tud_vendor_control_xfer_cb, hty, hitf, hst]
  have hid : request.bRequest = CTRL_ECHO ∨ request.bRequest = CTRL_INIT
      ∨ request.bRequest = CTRL_RESET ∨ request.bRequest = CTRL_SHUTDOWN
      ∨ request.bRequest = CTRL_ENTER_BOOTLOADER ∨ request.bRequest = CTRL_GITREV
      ∨ request.bRequest = CTRL_GCCVER ∨ request.bRequest = CTRL_SDKVER
      ∨ (request.bRequest ≠ CTRL_ECHO ∧ request.bRequest ≠ CTRL_INIT
        ∧ request.bRequest ≠ CTRL_RESET ∧ request.bRequest ≠ CTRL_SHUTDOWN
        ∧ request.bRequest ≠ CTRL_ENTER_BOOTLOADER ∧ request.bRequest ≠ CTRL_GITREV
        ∧ request.bRequest ≠ CTRL_GCCVER ∧ request.bRequest ≠ CTRL_SDKVER) := by
    simp only [CTRL_ECHO, CTRL_INIT, CTRL_RESET, CTRL_SHUTDOWN, CTRL_ENTER_BOOTLOADER,
      CTRL_GITREV, CTRL_GCCVER, CTRL_SDKVER]
    omega
  simp only [CTRL_ECHO, CTRL_INIT, CTRL_RESET, CTRL_SHUTDOWN, CTRL_ENTER_BOOTLOADER,
    CTRL_GITREV, CTRL_GCCVER, CTRL_SDKVER] at hid
  rcases hid with h | h | h | h | h | h | h | h | ⟨h0, h1, h2, h3, h4, h6, h7, h8⟩ <;>
    by_cases hd : request.bmRequestType_direction = TUSB_DIR_IN <;>
    cases hb : b.enter_usb_boot_on_exit <;>
    simp [tud_vendor_control_xfer_cb, ctrl_send, enter_bootloader, init_protocol_handling,
      reset_data, hty, hitf, hst, hd, hb, *, CTRL_ECHO, CTRL_INIT, CTRL_RESET, CTRL_SHUTDOWN,
      CTRL_ENTER_BOOTLOADER, CTRL_GITREV, CTRL_GCCVER, CTRL_SDKVER]

theorem control_inv (b : Build) (t : Transport) (s : Statics) (rhport stage : Nat)
    (request : ControlRequest) (h : engine_inv s) :
    engine_inv (tud_vendor_control_xfer_cb b t s rhport stage request).st := by
  rcases control_fields b t s rhport stage request with ⟨hc, he, hh⟩ | ⟨hc, he, hh⟩
  · exact engine_inv_of_fields s _ hc he hh h
  · exact engine_inv_of_reset _ hc he hh

theorem step_inv (b : Build) (s : Statics) (e : Event) (h : engine_inv s) :
    engine_inv (step b s e).1 := by
  cases e with
  | rx itf buffer bufsize => exact rx_inv s itf buffer bufsize h
  | poll t => exact poll_inv t s h
  | mount => exact init_protocol_handling_inv s
  | umount => exact init_protocol_handling_inv s
  | suspend en => exact init_protocol_handling_inv s
  | resume => exact init_protocol_handling_inv s
  | tx itf sent_bytes => exact h
  | control t rhport stage request =>
    have hctl := control_inv b t s rhport stage request h
    simp only [step]
    cases hret : (tud_vendor_control_xfer_cb b t s rhport stage request).ret with
    | none => exact engine_inv_init
    | some r => exact hctl

theorem run_inv (b : Build) (es : List Event) :
    ∀ s : Statics, engine_inv s → engine_inv (run b s es).1 := by
  induction es with
  | nil => intro s h; exact h
  | cons e es ih =>
    intro s h
    exact ih (step b s e).1 (step_inv b s e h)

/-- C26: in every state reached from the initial statics by any sequence of
receive, poll, lifecycle, transmit-complete and control events (in any
build, against any transport): `current_command` is `CMD_NONE` (0),
`CMD_READ` (8) or `CMD_WRITE` (9); `current_command = CMD_NONE` exactly when
`expected_data_len = 0`, and then `handled_data_len = 0` too; so the
condition of the receive handler's branch for an invalid current command
(none of the three values) never holds. -/
theorem reachable_command_shape (b : Build) (events : List Event) :
    ((run b Statics.init events).1.current_command = CMD_NONE
      ∨ (run b Statics.init events).1.current_command = CMD_READ
      ∨ (run b Statics.init events).1.current_command = CMD_WRITE)
    ∧ ((run b Statics.init events).1.current_command = CMD_NONE
        ↔ (run b Statics.init events).1.expected_data_len = 0)
    ∧ ((run b Statics.init events).1.current_command = CMD_NONE
        → (run b Statics.init events).1.handled_data_len = 0)
    ∧ ¬ ((run b Statics.init events).1.current_command ≠ CMD_NONE
        ∧ (run b Statics.init events).1.current_command ≠ CMD_WRITE
        ∧ (run b Statics.init events).1.current_command ≠ CMD_READ) := by
  have h := run_inv b events Statics.init engine_inv_init
  generalize (run b Statics.init events).1 = s at h
  unfold engine_inv at h
  simp only [CMD_NONE, CMD_READ, CMD_WRITE] at h ⊢
  omega

/-- C27: in every state with `current_command = CMD_READ` reached from the
initial statics by any sequence of events, `handled_data_len <
expected_data_len < 65536`, so the 16-bit difference computed by
`maybe_send_data` is the true difference `expected_data_len -
handled_data_len`; and in a poll against a transport that accepts at most
what it is offered, `handled_data_len` plus the bytes accepted stays below
65536 (and at most `expected_data_len`), and the write, whose length is the
byte count of the fill of the send buffer, offers at most 64 bytes. -/
theorem read_state_arithmetic_is_safe (b : Build) (events : List Event) (t : Transport)
    (hw : ∀ bytes, t.write bytes ≤ bytes.length)
    (hread : (run b Statics.init events).1.current_command = CMD_READ) :
    (run b Statics.init events).1.handled_data_len
        < (run b Statics.init events).1.expected_data_len
    ∧ (run b Statics.init events).1.expected_data_len < 65536
    ∧ ((run b Statics.init events).1.expected_data_len + 65536
          - (run b Statics.init events).1.handled_data_len) % 65536
        = (run b Statics.init events).1.expected_data_len
          - (run b Statics.init events).1.handled_data_len
    ∧ (run b Statics.init events).1.handled_data_len
          + accepted t (maybe_send_data t (run b Statics.init events).1).2
        ≤ (run b Statics.init events).1.expected_data_len
    ∧ (run b Statics.init events).1.handled_data_len
          + accepted t (maybe_send_data t (run b Statics.init events).1).2 < 65536
    ∧ (∀ bytes ∈ vendor_writes (maybe_send_data t (run b Statics.init events).1).2,
        bytes.length ≤ 64) := by
  have h := run_inv b events Statics.init engine_inv_init
  generalize (run b Statics.init events).1 = s at h hread
  have hinv : s.handled_data_len < s.expected_data_len ∧ s.expected_data_len < 65536 := by
    unfold engine_inv at h
    rw [hread] at h
    simp only [CMD_NONE, CMD_READ, CMD_WRITE] at h
    omega
  obtain ⟨hlt, he⟩ := hinv
  obtain ⟨k, hk64, _, hkw, hsent, htrace, _⟩ := poll_read t s hread he hlt hw
  have hacc : accepted t (maybe_send_data t s).2 = t.write (List.replicate k 0x78) % 2 ^ 32 := by
    rw [htrace]
    simp [accepted, vendor_writes]
  refine ⟨hlt, he, by omega, by omega, by omega, ?_⟩
  intro bytes hb
  simp only [htrace, vendor_writes, List.mem_singleton] at hb
  subst hb
  simpa using hk64

/-- C27 at a concrete input: after a Read frame for 100 bytes, against a
transport with 64 bytes of space that accepts all it is offered. -/
theorem read_state_arithmetic_is_safe_witness :
    (run ⟨[], [], [], true⟩ Statics.init
        [Event.rx ITF_NUM_VENDOR [8, 16, 100, 0] 4]).1.handled_data_len
      < (run ⟨[], [], [], true⟩ Statics.init
        [Event.rx ITF_NUM_VENDOR [8, 16, 100, 0] 4]).1.expected_data_len :=
  (read_state_arithmetic_is_safe ⟨[], [], [], true⟩
    [Event.rx ITF_NUM_VENDOR [8, 16, 100, 0] 4]
    ⟨64, fun bytes => bytes.length, fun _ => true⟩ (fun _ => le_refl _) rfl).1

/-! ## Read progress -/

theorem log_writes_idle (ts : List Transport) :
    log_writes (ts.map (fun t => (t, []))) = [] := by
  induction ts with
  | nil => rfl
  | cons t ts ih => simpa [log_writes, vendor_writes] using ih

/-- A Read of `n` bytes with `handled_data_len` bytes sent, polled against
transports that report at least 64 bytes of space and accept all they are
offered: 64 bytes per poll, the rest on the last one. -/
theorem read_progress_from (n : Nat) (hn : n < 65536) (ts : List Transport) :
    ∀ s : Statics, s.current_command = CMD_READ → s.expected_data_len = n →
      s.handled_data_len < n →
      (∀ t ∈ ts, 64 ≤ t.write_available ∧ t.write_available < 2 ^ 32
        ∧ ∀ bytes, t.write bytes = bytes.length) →
      (ts.length < (n - s.handled_data_len + 63) / 64 →
        (poll_run s ts).1.current_command = CMD_READ
        ∧ (poll_run s ts).1.expected_data_len = n
        ∧ (poll_run s ts).1.handled_data_len = s.handled_data_len + 64 * ts.length
        ∧ log_writes (poll_run s ts).2 = List.replicate ts.length (List.replicate 64 0x78)
        ∧ accepted_total (poll_run s ts).2 = 64 * ts.length)
      ∧ ((n - s.handled_data_len + 63) / 64 ≤ ts.length →
        (poll_run s ts).1.current_command = CMD_NONE
        ∧ (poll_run s ts).1.expected_data_len = 0
        ∧ (poll_run s ts).1.handled_data_len = 0
        ∧ log_writes (poll_run s ts).2 =
            List.replicate ((n - s.handled_data_len + 63) / 64 - 1) (List.replicate 64 0x78)
              ++ [List.replicate
                    (n - s.handled_data_len
                      - 64 * ((n - s.handled_data_len + 63) / 64 - 1)) 0x78]
        ∧ accepted_total (poll_run s ts).2 = n - s.handled_data_len) := by
  induction ts with
  | nil =>
    intro s hc he hlt _
    refine ⟨fun _ => ⟨hc, he, by simp [poll_run], by simp [poll_run, log_writes],
      by simp [poll_run, accepted_total]⟩, ?_⟩
    intro hle
    simp only [List.length_nil] at hle
    omega
  | cons t ts ih =>
    intro s hc he hlt hcoop
    obtain ⟨ha64, ha32, hall⟩ := hcoop t (by simp)
    have hcoop' : ∀ u ∈ ts, 64 ≤ u.write_available ∧ u.write_available < 2 ^ 32
        ∧ ∀ bytes, u.write bytes = bytes.length :=
      fun u hu => hcoop u (List.mem_cons_of_mem _ hu)
    obtain ⟨htrace, hdone, hmore⟩ := poll_read_exact t s hc (by omega) (by omega) ha32
      (fun bytes => le_of_eq (hall bytes))
    rw [he] at htrace hdone hmore
    have hkmin : min (min t.write_available (n - s.handled_data_len)) 64
        = min (n - s.handled_data_len) 64 := by omega
    rw [hkmin] at htrace hdone hmore
    have hacc : t.write (List.replicate (min (n - s.handled_data_len) 64) 0x78)
        = min (n - s.handled_data_len) 64 := by
      rw [hall]
      simp
    rw [hacc] at hdone hmore
    have hacc1 : accepted t (maybe_send_data t s).2 = min (n - s.handled_data_len) 64 := by
      rw [htrace]
      have h32 : min (n - s.handled_data_len) 64 % 2 ^ 32 = min (n - s.handled_data_len) 64 :=
        Nat.mod_eq_of_lt (by omega)
      simp [accepted, vendor_writes, hacc, h32]
    have hlog : log_writes (poll_run s (t :: ts)).2 =
        List.replicate (min (n - s.handled_data_len) 64) 0x78
          :: log_writes (poll_run (maybe_send_data t s).1 ts).2 := by
      simp [poll_run, log_writes, htrace, vendor_writes]
    have htot : accepted_total (poll_run s (t :: ts)).2 =
        min (n - s.handled_data_len) 64 + accepted_total (poll_run (maybe_send_data t s).1 ts).2 := by
      simp [poll_run, accepted_total, hacc1]
    have hst : (poll_run s (t :: ts)).1 = (poll_run (maybe_send_data t s).1 ts).1 := rfl
    rw [hlog, htot, hst]
    by_cases hlast : n - s.handled_data_len ≤ 64
    · have hk : min (n - s.handled_data_len) 64 = n - s.handled_data_len := by omega
      rw [hk] at hdone ⊢
      obtain ⟨c1, c2, c3⟩ := hdone (by omega)
      have hnr : (maybe_send_data t s).1.current_command ≠ CMD_READ := by
        rw [c1]; decide
      have hceil : (n - s.handled_data_len + 63) / 64 = 1 := by omega
      rw [poll_run_idle ts _ hnr, log_writes_idle, accepted_total_idle, hceil]
      refine ⟨?_, ?_⟩
      · intro hlen
        simp only [List.length_cons] at hlen
        omega
      · intro _
        exact ⟨c1, c2, c3, by simp, by simp⟩
    · have hk : min (n - s.handled_data_len) 64 = 64 := by omega
      rw [hk] at hmore ⊢
      obtain ⟨c1, c2, c3⟩ := hmore (by omega)
      have hrec := ih (maybe_send_data t s).1 c1 c2 (by omega) hcoop'
      rw [c3] at hrec
      have hceil : (n - s.handled_data_len + 63) / 64
          = (n - (s.handled_data_len + 64) + 63) / 64 + 1 := by omega
      have hceil1 : 1 ≤ (n - (s.handled_data_len + 64) + 63) / 64 := by omega
      rw [hceil]
      generalize (n - (s.handled_data_len + 64) + 63) / 64 = c at hrec hceil1 ⊢
      refine ⟨?_, ?_⟩
      · intro hlen
        simp only [List.length_cons] at hlen
        obtain ⟨d1, d2, d3, d4, d5⟩ := hrec.1 (by omega)
        refine ⟨d1, d2, ?_, ?_, ?_⟩
        · rw [d3, List.length_cons]; omega
        · rw [d4, List.length_cons]
          rfl
        · rw [d5, List.length_cons]; omega
      · intro hlen
        simp only [List.length_cons] at hlen
        obtain ⟨d1, d2, d3, d4, d5⟩ := hrec.2 (by omega)
        refine ⟨d1, d2, d3, ?_, ?_⟩
        · rw [d4]
          obtain ⟨c', rfl⟩ : ∃ c', c = c' + 1 := ⟨c - 1, by omega⟩
          have e1 : c' + 1 + 1 - 1 = c' + 1 := by omega
          have e2 : c' + 1 - 1 = c' := by omega
          have e3 : n - s.handled_data_len - 64 * (c' + 1)
              = n - (s.handled_data_len + 64) - 64 * c' := by omega
          rw [e1, e2, e3]
          rfl
        · rw [d5]; omega

/-- C28: after the frame `[8, p, lo, hi]` with `lo + 256 * hi = n`, `n` in
1..65535, received in Idle, and polled against transports that each report
at least 64 bytes of space and accept every byte offered: the engine is
still in Read after fewer than `(n + 63) / 64` polls (the ceiling of
`n / 64`) and at `{CMD_NONE, 0, 0}` after that many; by then exactly `n`
bytes are accepted, in writes of 64 bytes each followed by a last write of
`n - 64 * ((n + 63) / 64 - 1)` bytes, which is between 1 and 64. -/
theorem read_progress_cooperative (s : Statics) (p lo hi n : Nat) (ts : List Transport)
    (hidle : s.current_command = CMD_NONE) (hlo : lo < 256) (hhi : hi < 256)
    (hlen : lo + 256 * hi = n) (h1 : 1 ≤ n) (hn : n ≤ 65535)
    (hcoop : ∀ t ∈ ts, 64 ≤ t.write_available ∧ t.write_available < 2 ^ 32
      ∧ ∀ bytes, t.write bytes = bytes.length) :
    (ts.length < (n + 63) / 64 →
      (poll_run (tud_vendor_rx_cb s ITF_NUM_VENDOR [8, p, lo, hi] 4).1 ts).1.current_command
          = CMD_READ
      ∧ log_writes (poll_run (tud_vendor_rx_cb s ITF_NUM_VENDOR [8, p, lo, hi] 4).1 ts).2
          = List.replicate ts.length (List.replicate 64 0x78))
    ∧ ((n + 63) / 64 ≤ ts.length →
      (poll_run (tud_vendor_rx_cb s ITF_NUM_VENDOR [8, p, lo, hi] 4).1 ts).1.current_command
          = CMD_NONE
      ∧ (poll_run (tud_vendor_rx_cb s ITF_NUM_VENDOR [8, p, lo, hi] 4).1 ts).1.expected_data_len
          = 0
      ∧ (poll_run (tud_vendor_rx_cb s ITF_NUM_VENDOR [8, p, lo, hi] 4).1 ts).1.handled_data_len
          = 0
      ∧ accepted_total (poll_run (tud_vendor_rx_cb s ITF_NUM_VENDOR [8, p, lo, hi] 4).1 ts).2
          = n
      ∧ log_writes (poll_run (tud_vendor_rx_cb s ITF_NUM_VENDOR [8, p, lo, hi] 4).1 ts).2
          = List.replicate ((n + 63) / 64 - 1) (List.replicate 64 0x78)
              ++ [List.replicate (n - 64 * ((n + 63) / 64 - 1)) 0x78])
    ∧ 1 ≤ n - 64 * ((n + 63) / 64 - 1) ∧ n - 64 * ((n + 63) / 64 - 1) ≤ 64 := by
  have h0 := rx_cmd_read s p lo hi hidle hlo hhi (by omega)
  have h0' : tud_vendor_rx_cb s ITF_NUM_VENDOR [8, p, lo, hi] 4 =
      ({ s with expected_data_len := lo + 256 * hi, handled_data_len := 0,
                current_command := CMD_READ },
       [Effect.vendor_read_flush]) := h0
  rw [h0']
  dsimp only
  have hrun := read_progress_from n (by omega) ts
    { s with expected_data_len := lo + 256 * hi, handled_data_len := 0,
             current_command := CMD_READ } rfl hlen (by show 0 < n; omega) hcoop
  simp only [Nat.sub_zero, Nat.zero_add] at hrun
  refine ⟨?_, ?_, by omega, by omega⟩
  · intro hlt
    obtain ⟨d1, _, _, d4, _⟩ := hrun.1 hlt
    exact ⟨d1, d4⟩
  · intro hle
    obtain ⟨d1, d2, d3, d4, d5⟩ := hrun.2 hle
    exact ⟨d1, d2, d3, d5, d4⟩

/-- C28 at a concrete input: `Read (100)` from the initial statics needs
`(100 + 63) / 64 = 2` polls against a transport with 64 bytes of space that
accepts everything: 64 bytes, then 36. -/
theorem read_progress_cooperative_witness :
    (poll_run (tud_vendor_rx_cb Statics.init ITF_NUM_VENDOR [8, 16, 100, 0] 4).1
        [⟨64, fun bytes => bytes.length, fun _ => true⟩,
         ⟨64, fun bytes => bytes.length, fun _ => true⟩]).1.current_command = CMD_NONE
    ∧ log_writes (poll_run (tud_vendor_rx_cb Statics.init ITF_NUM_VENDOR [8, 16, 100, 0] 4).1
        [⟨64, fun bytes => bytes.length, fun _ => true⟩,
         ⟨64, fun bytes => bytes.length, fun _ => true⟩]).2
      = List.replicate ((100 + 63) / 64 - 1) (List.replicate 64 0x78)
          ++ [List.replicate (100 - 64 * ((100 + 63) / 64 - 1)) 0x78] :=
  ⟨((read_progress_cooperative Statics.init 16 100 0 100
      [⟨64, fun bytes => bytes.length, fun _ => true⟩,
       ⟨64, fun bytes => bytes.length, fun _ => true⟩]
      rfl (by decide) (by decide) (by decide) (by decide) (by decide)
      (by
        intro t ht
        simp only [List.mem_cons, List.mem_singleton, List.not_mem_nil, or_false, or_self] at ht
        subst ht
        exact ⟨le_refl _, by decide, fun _ => rfl⟩)).2.1 (by decide)).1,
   ((read_progress_cooperative Statics.init 16 100 0 100
      [⟨64, fun bytes => bytes.length, fun _ => true⟩,
       ⟨64, fun bytes => bytes.length, fun _ => true⟩]
      rfl (by decide) (by decide) (by decide) (by decide) (by decide)
      (by
        intro t ht
        simp only [List.mem_cons, List.mem_singleton, List.not_mem_nil, or_false, or_self] at ht
        subst ht
        exact ⟨le_refl _, by decide, fun _ => rfl⟩)).2.1 (by decide)).2.2.2.2⟩

end TinyusbVendor
